import Mathlib

/-!
Verification development for the ShelfCam alert engine
(`app/services/alert_service.py` of the ShelfCam backend).

The engine ingests shelf snapshots (shelf id, empty percentage, detected
item labels), classifies stock severity, detects misplaced and missing
items by fuzzy name matching, upserts deduplicated alerts, drives the
alert lifecycle (acknowledge / resolve / auto-resolve) and appends an
audit-history record for every mutation.

Shallow embedding conventions:
* Python floats are modelled as `ℚ`.
* `datetime.utcnow()` is a `Nat` clock value supplied per call; all
  timestamps taken inside one service call share that value.
* The SQLAlchemy session is a `DB` value (alert table, history table,
  autoincrement counter); `db.add` + `db.flush` assign the next id,
  `commit` publishes the session state, `rollback` discards it.
* A JSON snapshot may carry `null` entries inside `items_detected`
  (the payload is parsed from the model's output file and is not
  validated), so a detected label is `Option String`; `none` models a
  JSON `null`, which makes `.lower()` raise `AttributeError` where the
  source calls it.  Computations that can raise return `Except String`.
* Python `str.lower()` is modelled for the ASCII alphabet
  (`charLower` / `strLower`), and substring tests (`in`, SQL
  `ilike "%x%"`) by an executable occurrence check on character lists.
-/

namespace ShelfCam

/-- Pairs of upper/lower case ASCII letters; models the alphabet on which
Python `str.lower()` acts for the item names appearing in this system. -/
def lowerPairs : List (Char × Char) :=
  [('A', 'a'), ('B', 'b'), ('C', 'c'), ('D', 'd'), ('E', 'e'), ('F', 'f'),
   ('G', 'g'), ('H', 'h'), ('I', 'i'), ('J', 'j'), ('K', 'k'), ('L', 'l'),
   ('M', 'm'), ('N', 'n'), ('O', 'o'), ('P', 'p'), ('Q', 'q'), ('R', 'r'),
   ('S', 's'), ('T', 't'), ('U', 'u'), ('V', 'v'), ('W', 'w'), ('X', 'x'),
   ('Y', 'y'), ('Z', 'z')]

/-- Lower-case a single character (ASCII model of Python `str.lower`). -/
def charLower (c : Char) : Char :=
  ((lowerPairs.find? (fun p => p.1 == c)).map (fun p => p.2)).getD c

/-- Lower-case a string character-wise (Python `s.lower()`). -/
def strLower (s : String) : String := String.mk (s.data.map charLower)

/-- Does the second list start with the first one? -/
def leadsWith : List Char → List Char → Bool
  | [], _ => true
  | _ :: _, [] => false
  | a :: as, b :: bs => a == b && leadsWith as bs

/-- Does `sub` occur contiguously inside `l`?  (Python `sub in s`.) -/
def occursIn (sub : List Char) : List Char → Bool
  | [] => leadsWith sub []
  | c :: rest => leadsWith sub (c :: rest) || occursIn sub rest

/-- Python substring test `sub in s` (empty `sub` always matches). -/
def strContains (s sub : String) : Bool := occursIn sub.data s.data

/-- Python string truthiness (`if not s`). -/
def strTruthy (s : String) : Bool := !s.data.isEmpty

/-- Upper-casing for the priority labels (`priority.value.upper()`);
only the lower-case alphabet occurs in those labels. -/
def charUpper (c : Char) : Char :=
  ((lowerPairs.find? (fun p => p.2 == c)).map (fun p => p.1)).getD c

/-- Python `s.upper()` on ASCII strings. -/
def strUpper (s : String) : String := String.mk (s.data.map charUpper)

/-- Alert classification (`AlertType` in `app/models/alert.py`). -/
inductive AlertType
  | low_stock
  | medium_stock
  | high_stock
  | critical_stock
  | out_of_stock
  | misplaced_item
deriving Repr, DecidableEq

/-- Alert lifecycle state (`AlertStatus`). -/
inductive AlertStatus
  | active
  | acknowledged
  | resolved
  | pending
deriving Repr, DecidableEq

/-- Alert priority (`AlertPriority`). -/
inductive AlertPriority
  | low
  | medium
  | high
  | critical
deriving Repr, DecidableEq

/-- The string payload of the priority enum (`AlertPriority.value`). -/
def AlertPriority.value : AlertPriority → String
  | .low => "low"
  | .medium => "medium"
  | .high => "high"
  | .critical => "critical"

/-- A row of the `alerts` table (`Alert` ORM model). -/
structure Alert where
  id : Nat
  alert_type : AlertType
  status : AlertStatus
  priority : AlertPriority
  shelf_name : String
  rack_name : Option String
  product_number : Option String
  product_name : Option String
  category : Option String
  title : String
  message : String
  expected_product : Option String
  actual_product : Option String
  correct_location : Option String
  empty_percentage : Option ℚ
  fill_percentage : Option ℚ
  assigned_staff_id : Option String
  created_by : Option String
  acknowledged_at : Option Nat
  resolved_at : Option Nat
  created_at : Nat
  updated_at : Nat
deriving Repr, DecidableEq

/-- A row of the append-only audit table (`AlertHistory` ORM model). -/
structure AlertHistory where
  alert_id : Nat
  action : String
  performed_by : Option String
  notes : Option String
  timestamp : Nat
deriving Repr, DecidableEq

/-- A row of the `inventory` table; every column is `NOT NULL` in
`app/models/inventory.py`. -/
structure Inventory where
  shelf_name : String
  product_name : String
  category : String
  rack_name : String
deriving Repr, DecidableEq

/-- A row of the staff-assignment table (fields the engine reads). -/
structure StaffAssignment where
  shelf_id : String
  employee_id : String
  is_active : Bool
deriving Repr, DecidableEq

/-- Read-only collaborators of the engine: the shelf catalog (shelf
names), the full inventory catalog in query order, and the staff
assignment directory. -/
structure Env where
  shelves : List String
  inventory : List Inventory
  assignments : List StaffAssignment
deriving Repr

/-- The mutable session state: alert rows, history rows, and the
autoincrement id counter used at `db.flush`. -/
structure DB where
  alerts : List Alert
  history : List AlertHistory
  nextId : Nat
deriving Repr, DecidableEq

/-- The stock threshold configuration hardwired in
`AlertService.__init__` (`self.STOCK_THRESHOLDS`). -/
structure Thresholds where
  critical : ℚ
  high : ℚ
  medium : ℚ
  low : ℚ

/-- Default cut points: critical 10, high 25, medium 50, low 75. -/
def STOCK_THRESHOLDS : Thresholds := ⟨10, 25, 50, 75⟩

/-- The five stock-tier alert types, in the order the source lists them
in its dedup queries. -/
def stockTypes : List AlertType :=
  [.low_stock, .medium_stock, .high_stock, .critical_stock, .out_of_stock]

/-- Is the alert of a stock-tier type? -/
def isStockTypeB (a : Alert) : Bool := stockTypes.contains a.alert_type

/-- The filter of the stock dedup / auto-resolve queries: an ACTIVE
shelf-level (`rack_name IS NULL`) alert of a stock-tier type for the
given shelf (`_check_stock_levels` lines 159-168, and
`_resolve_existing_stock_alerts`). -/
def isActiveShelfStockAlert (shelf_name : String) (a : Alert) : Bool :=
  a.shelf_name == shelf_name && a.rack_name == none &&
  a.status == AlertStatus.active && stockTypes.contains a.alert_type

/-- The filter of the misplacement dedup query: same shelf, type
MISPLACED_ITEM, same `actual_product`, status ACTIVE
(`_create_misplacement_alert` lines 293-300). -/
def misplacedKey (shelf_name detected_item : String) (a : Alert) : Bool :=
  a.shelf_name == shelf_name && a.alert_type == AlertType.misplaced_item &&
  a.actual_product == some detected_item && a.status == AlertStatus.active

/-- The filter of the missing-items dedup query: same shelf, type
MISPLACED_ITEM, title LIKE `%MISSING ITEMS%`, status ACTIVE
(`_create_missing_items_alert` lines 356-363). -/
def missingKey (shelf_name : String) (a : Alert) : Bool :=
  a.shelf_name == shelf_name && a.alert_type == AlertType.misplaced_item &&
  strContains a.title "MISSING ITEMS" && a.status == AlertStatus.active

/-- Replace the first element satisfying `p` (the object returned by a
SQLAlchemy `.first()` query is mutated in place). -/
def modifyFirst (p : Alert → Bool) (f : Alert → Alert) : List Alert → List Alert
  | [] => []
  | a :: rest => if p a then f a :: rest else a :: modifyFirst p f rest

/-- `db.add(alert)` followed by `db.flush()`: the new row receives the
next autoincrement id. -/
def addAlert (db : DB) (mk : Nat → Alert) : DB × Alert :=
  let alert := mk db.nextId
  ({ db with alerts := db.alerts ++ [alert], nextId := db.nextId + 1 }, alert)

/-- `_log_alert_action`: append one audit row.  The source wraps the
construction in a try/except that swallows audit failures; constructing
and adding a history row cannot fail in this model, so the handler is
dead code here. -/
def log_alert_action (db : DB) (now : Nat) (alert_id : Nat) (action : String)
    (employee_id : Option String) (notes : Option String) : DB :=
  { db with history := db.history ++ [⟨alert_id, action, employee_id, notes, now⟩] }

/-- `_get_assigned_staff_id`: first active assignment for the shelf. -/
def get_assigned_staff_id (env : Env) (shelf_name : String) : Option String :=
  ((env.assignments.find? (fun a => a.shelf_id == shelf_name && a.is_active)).map
    (fun a => a.employee_id))

/-- Python `f"{x:.1f}"`: fixed-point rendering with one decimal digit.
Python rounds ties to even; `round` here rounds ties up, which can
differ only on exact `.05` ties, which no claim exercises. -/
def fmt1 (q : ℚ) : String :=
  let n : Int := round (q * 10)
  (if n < 0 then "-" else "") ++ toString (n.natAbs / 10) ++ "." ++ toString (n.natAbs % 10)

/-- The priority emoji table of `_check_stock_levels`; the lookup
default `"📢"` is unreachable because the table is total. -/
def priorityEmoji : AlertPriority → String
  | .critical => "🚨"
  | .high => "🔴"
  | .medium => "🟡"
  | .low => "🟢"

/-- The threshold classifier of `_check_stock_levels` (lines 119-130):
strictly-less-than boundaries evaluated in ascending severity order;
`fill == 0` distinguishes OUT_OF_STOCK inside the critical band. -/
def classifyStock (fill_percentage : ℚ) : Option (AlertType × AlertPriority) :=
  if fill_percentage < STOCK_THRESHOLDS.critical then
    some (if fill_percentage > 0 then AlertType.critical_stock else AlertType.out_of_stock,
          AlertPriority.critical)
  else if fill_percentage < STOCK_THRESHOLDS.high then
    some (AlertType.high_stock, AlertPriority.high)
  else if fill_percentage < STOCK_THRESHOLDS.medium then
    some (AlertType.medium_stock, AlertPriority.medium)
  else if fill_percentage < STOCK_THRESHOLDS.low then
    some (AlertType.low_stock, AlertPriority.low)
  else none

/-- Title text of a stock alert (lines 147-152). -/
def stockTitle (shelf_name : String) (t : AlertType) (p : AlertPriority) : String :=
  if t == AlertType.out_of_stock then
    priorityEmoji p ++ " OUT OF STOCK: Shelf " ++ shelf_name
  else
    priorityEmoji p ++ " " ++ strUpper p.value ++ " STOCK: Shelf " ++ shelf_name

/-- Message text of a stock alert (lines 147-152). -/
def stockMessage (shelf_name : String) (t : AlertType) (p : AlertPriority)
    (fill_percentage : ℚ) : String :=
  if t == AlertType.out_of_stock then
    "URGENT: Shelf " ++ shelf_name ++
      " is completely empty (0% filled). Immediate restocking required!"
  else
    "Shelf " ++ shelf_name ++ " has " ++ p.value ++ " stock levels. Current fill: " ++
      fmt1 fill_percentage ++ "%"

/-- Shelf category summary (lines 154-156): distinct truthy categories
joined, else `"Mixed"`.  The source materialises a Python `set`, whose
iteration order is unspecified; first-occurrence order stands in for it
(no claim depends on the order). -/
def categoryText (inventory_items : List Inventory) : String :=
  let categories := ((inventory_items.filter (fun i => strTruthy i.category)).map
    (fun i => i.category)).eraseDups
  if categories.isEmpty then "Mixed" else String.intercalate ", " categories

/-- `_resolve_existing_stock_alerts`: resolve every ACTIVE shelf-level
stock-tier alert of the shelf and log `auto_resolved` for each, in
query order. -/
def resolve_existing_stock_alerts (env : Env) (now : Nat) (db : DB)
    (shelf_name : String) : DB :=
  let matched := db.alerts.filter (isActiveShelfStockAlert shelf_name)
  { db with
    alerts := db.alerts.map (fun a =>
      if isActiveShelfStockAlert shelf_name a then
        { a with status := AlertStatus.resolved, resolved_at := some now, updated_at := now }
      else a),
    history := db.history ++ matched.map (fun a =>
      (⟨a.id, "auto_resolved", none, some "Stock level returned to normal", now⟩ : AlertHistory)) }

/-- The alert row built by the create branch of `_check_stock_levels`
(lines 191-206): ACTIVE shelf-level stock alert with the generated
title/message, the category summary, and the staff assignment resolved
once at creation. -/
def stockAlertRec (env : Env) (shelf_name : String) (alert_type : AlertType)
    (priority : AlertPriority) (fill_percentage empty_percentage : ℚ)
    (inventory_items : List Inventory) (i now : Nat) : Alert :=
  { id := i, alert_type := alert_type, status := AlertStatus.active,
    priority := priority, shelf_name := shelf_name, rack_name := none,
    product_number := none, product_name := none,
    category := some (categoryText inventory_items),
    title := stockTitle shelf_name alert_type priority,
    message := stockMessage shelf_name alert_type priority fill_percentage,
    expected_product := none, actual_product := none, correct_location := none,
    empty_percentage := some empty_percentage, fill_percentage := some fill_percentage,
    assigned_staff_id := get_assigned_staff_id env shelf_name,
    created_by := some "system", acknowledged_at := none, resolved_at := none,
    created_at := now, updated_at := now }

/-- The in-place mutation of the update branch of `_check_stock_levels`
(lines 170-186): type, priority, title, message, percentages, category
and `updated_at` are rewritten; everything else is kept. -/
def stockUpdate (shelf_name : String) (alert_type : AlertType) (priority : AlertPriority)
    (fill_percentage empty_percentage : ℚ) (inventory_items : List Inventory)
    (now : Nat) (existing : Alert) : Alert :=
  { existing with
    alert_type := alert_type, priority := priority,
    title := stockTitle shelf_name alert_type priority,
    message := stockMessage shelf_name alert_type priority fill_percentage,
    empty_percentage := some empty_percentage, fill_percentage := some fill_percentage,
    category := some (categoryText inventory_items), updated_at := now }

/-- `_check_stock_levels`: classify the fill level; on no tier,
auto-resolve stale stock alerts; otherwise update the existing ACTIVE
stock alert in place or create a new one, logging the action. -/
def check_stock_levels (env : Env) (now : Nat) (db : DB) (shelf_name : String)
    (fill_percentage empty_percentage : ℚ) (inventory_items : List Inventory) :
    DB × Option Alert :=
  match classifyStock fill_percentage with
  | none => (resolve_existing_stock_alerts env now db shelf_name, none)
  | some (alert_type, priority) =>
    match db.alerts.find? (isActiveShelfStockAlert shelf_name) with
    | some existing =>
      let updated := stockUpdate shelf_name alert_type priority fill_percentage
        empty_percentage inventory_items now existing
      let db1 := { db with
        alerts := modifyFirst (isActiveShelfStockAlert shelf_name) (fun _ => updated) db.alerts }
      let db2 := log_alert_action db1 now existing.id "updated" none
        (some ("Stock level updated to " ++ fmt1 fill_percentage ++ "%"))
      (db2, some updated)
    | none =>
      let pair := addAlert db (fun i => stockAlertRec env shelf_name alert_type priority
        fill_percentage empty_percentage inventory_items i now)
      let db2 := log_alert_action pair.1 now pair.2.id "created" none
        (some ("Stock alert created for " ++ fmt1 fill_percentage ++ "% fill level"))
      (db2, some pair.2)

/-- `_find_correct_location`: first inventory row anywhere in the
catalog whose product name contains the item name case-insensitively
(SQL `ilike "%item%"`), returning its shelf name. -/
def find_correct_location (env : Env) (item_name : String) : Option String :=
  (((env.inventory.filter (fun i => strContains (strLower i.product_name) (strLower item_name)))).head?).map
    (fun i => i.shelf_name)

/-- The fuzzy-match test of the misplaced check (lines 238-243): the
lowered detected label is contained in, contains, or equals a member of
the pre-lowered expected-name set (the source lowers the already
lowered names a second time). -/
def is_expected (expected_items : List String) (detected_item_lower : String) : Bool :=
  expected_items.any (fun expected =>
    strContains (strLower expected) detected_item_lower ||
    strContains detected_item_lower (strLower expected) ||
    detected_item_lower == strLower expected)

/-- A label of the snapshot that the misplaced check flags: non-falsy
and matching no expected item under the fuzzy rule. -/
def flaggedMisplaced (expected : List String) (items : List (Option String))
    (l : String) : Prop :=
  some l ∈ items ∧ strTruthy l = true ∧ is_expected expected (strLower l) = false

/-- The expected-items context appended to a misplacement message
(lines 283-287): first three product names, with an "(and N more)"
suffix past three. -/
def expectedContext (inventory_items : List Inventory) : String :=
  if inventory_items.isEmpty then ""
  else
    " Expected items: " ++
      String.intercalate ", " ((inventory_items.take 3).map (fun i => i.product_name)) ++
      (if inventory_items.length > 3 then
        " (and " ++ toString (inventory_items.length - 3) ++ " more)"
      else "")

/-- Title of a misplacement alert (line 279). -/
def misplacementTitle (shelf_name detected_item : String) : String :=
  "🔄 MISPLACED: " ++ detected_item ++ " on Shelf " ++ shelf_name

/-- Message of a misplacement alert (lines 280-290). -/
def misplacementMessage (env : Env) (shelf_name detected_item : String)
    (inventory_items : List Inventory) : String :=
  "Wrong item \x27" ++ detected_item ++ "\x27 found on shelf " ++
    shelf_name ++ "." ++ expectedContext inventory_items ++
    (match find_correct_location env detected_item with
     | some loc => " | Correct location: " ++ loc
     | none => "")

/-- The alert row built by the create branch of
`_create_misplacement_alert` (lines 314-336). -/
def misplacedAlertRec (env : Env) (shelf_name detected_item : String)
    (inventory_items : List Inventory) (i now : Nat) : Alert :=
  { id := i, alert_type := AlertType.misplaced_item, status := AlertStatus.active,
    priority := AlertPriority.medium, shelf_name := shelf_name, rack_name := none,
    product_number := none, product_name := none,
    category := (inventory_items.head?).map (fun it => it.category),
    title := misplacementTitle shelf_name detected_item,
    message := misplacementMessage env shelf_name detected_item inventory_items,
    expected_product := (inventory_items.head?).map (fun it => it.product_name),
    actual_product := some detected_item,
    correct_location := find_correct_location env detected_item,
    empty_percentage := none, fill_percentage := none,
    assigned_staff_id := get_assigned_staff_id env shelf_name,
    created_by := some "system", acknowledged_at := none, resolved_at := none,
    created_at := now, updated_at := now }

/-- The in-place mutation of the update branch of
`_create_misplacement_alert` (lines 302-312). -/
def misplacedUpdate (env : Env) (shelf_name detected_item : String)
    (inventory_items : List Inventory) (now : Nat) (existing : Alert) : Alert :=
  { existing with
    title := misplacementTitle shelf_name detected_item,
    message := misplacementMessage env shelf_name detected_item inventory_items,
    correct_location := find_correct_location env detected_item,
    updated_at := now }

/-- `_create_misplacement_alert`: update the existing ACTIVE alert for
(shelf, detected item) in place, or create a new MEDIUM-priority
MISPLACED_ITEM alert; either way log the action.  The source returns
`Optional[Alert]` but never `None` on these paths. -/
def create_misplacement_alert (env : Env) (now : Nat) (db : DB)
    (shelf_name detected_item : String) (inventory_items : List Inventory) :
    DB × Alert :=
  match db.alerts.find? (misplacedKey shelf_name detected_item) with
  | some existing =>
    let updated := misplacedUpdate env shelf_name detected_item inventory_items now existing
    let db1 := { db with
      alerts := modifyFirst (misplacedKey shelf_name detected_item) (fun _ => updated) db.alerts }
    let db2 := log_alert_action db1 now existing.id "updated" none
      (some ("Misplacement updated: " ++ detected_item))
    (db2, updated)
  | none =>
    let pair := addAlert db
      (fun i => misplacedAlertRec env shelf_name detected_item inventory_items i now)
    let db2 := log_alert_action pair.1 now pair.2.id "created" none
      (some ("Misplacement alert created: " ++ detected_item))
    (db2, pair.2)

/-- Message of the aggregated missing-items alert (lines 350-353):
first five missing names, with an "(and N more)" suffix past five. -/
def missingMessage (shelf_name : String) (missing_items : List String) : String :=
  "Expected items not detected on shelf " ++ shelf_name ++ ": " ++
    String.intercalate ", " (missing_items.take 5) ++
    (if missing_items.length > 5 then
      " (and " ++ toString (missing_items.length - 5) ++ " more)"
    else "")

/-- Title of the aggregated missing-items alert (line 349). -/
def missingTitle (shelf_name : String) : String :=
  "❌ MISSING ITEMS: Shelf " ++ shelf_name

/-- The alert row built by the create branch of
`_create_missing_items_alert` (lines 376-398). -/
def missingAlertRec (env : Env) (shelf_name : String) (missing_items : List String)
    (i now : Nat) : Alert :=
  { id := i, alert_type := AlertType.misplaced_item, status := AlertStatus.active,
    priority := AlertPriority.low, shelf_name := shelf_name, rack_name := none,
    product_number := none, product_name := none, category := none,
    title := missingTitle shelf_name,
    message := missingMessage shelf_name missing_items,
    expected_product := some (String.intercalate ", " missing_items),
    actual_product := none, correct_location := none,
    empty_percentage := none, fill_percentage := none,
    assigned_staff_id := get_assigned_staff_id env shelf_name,
    created_by := some "system", acknowledged_at := none, resolved_at := none,
    created_at := now, updated_at := now }

/-- The in-place mutation of the update branch of
`_create_missing_items_alert` (lines 365-374). -/
def missingUpdate (shelf_name : String) (missing_items : List String)
    (now : Nat) (existing : Alert) : Alert :=
  { existing with
    title := missingTitle shelf_name,
    message := missingMessage shelf_name missing_items,
    updated_at := now }

/-- `_create_missing_items_alert`: one aggregated LOW-priority
MISPLACED_ITEM alert per shelf, updated in place when an ACTIVE alert
with the `MISSING ITEMS` title marker already exists. -/
def create_missing_items_alert (env : Env) (now : Nat) (db : DB)
    (shelf_name : String) (missing_items : List String) : DB × Option Alert :=
  if missing_items.isEmpty then (db, none)
  else
    match db.alerts.find? (missingKey shelf_name) with
    | some existing =>
      let updated := missingUpdate shelf_name missing_items now existing
      let db1 := { db with
        alerts := modifyFirst (missingKey shelf_name) (fun _ => updated) db.alerts }
      let db2 := log_alert_action db1 now existing.id "updated" none
        (some ("Missing items updated: " ++ toString missing_items.length ++ " items"))
      (db2, some updated)
    | none =>
      let pair := addAlert db
        (fun i => missingAlertRec env shelf_name missing_items i now)
      let db2 := log_alert_action pair.1 now pair.2.id "created" none
        (some ("Missing items alert created: " ++ toString missing_items.length ++ " items"))
      (db2, some pair.2)

/-- Sequence the labels for Python `", ".join(items_detected)`, which
raises `TypeError` at a non-string (null) element. -/
def seqLabels : List (Option String) → Except String (List String)
  | [] => Except.ok []
  | some s :: rest => (seqLabels rest).map (fun l => s :: l)
  | none :: _ => Except.error "TypeError: sequence item: expected str instance, NoneType found"

/-- The alert row built by `_create_unknown_shelf_alert`: PENDING, LOW
priority, MISPLACED_ITEM type, no staff assignment; message and
`actual_product` depend on whether the detected list was empty. -/
def unknownShelfAlert (shelf_number : String) (labels : List String)
    (noneDetected : Bool) (i now : Nat) : Alert :=
  let base := "Shelf " ++ shelf_number ++ " not found in inventory system."
  let joined := String.intercalate ", " labels
  { id := i, alert_type := AlertType.misplaced_item, status := AlertStatus.pending,
    priority := AlertPriority.low, shelf_name := shelf_number, rack_name := none,
    product_number := none, product_name := none, category := none,
    title := "❓ UNKNOWN SHELF: " ++ shelf_number,
    message := if noneDetected then base else base ++ " Detected items: " ++ joined,
    expected_product := none,
    actual_product := if noneDetected then none else some joined,
    correct_location := none, empty_percentage := none, fill_percentage := none,
    assigned_staff_id := none, created_by := some "system",
    acknowledged_at := none, resolved_at := none, created_at := now, updated_at := now }

/-- `_create_unknown_shelf_alert`: one PENDING LOW-priority
MISPLACED_ITEM alert recording the detected labels; no staff
assignment.  Joining the labels raises on a null element. -/
def create_unknown_shelf_alert (env : Env) (now : Nat) (db : DB)
    (shelf_number : String) (items_detected : List (Option String)) :
    DB × Except String Alert :=
  if items_detected.isEmpty then
    let pair := addAlert db (fun i => unknownShelfAlert shelf_number [] true i now)
    let db2 := log_alert_action pair.1 now pair.2.id "created" none
      (some ("Unknown shelf alert: " ++ shelf_number))
    (db2, Except.ok pair.2)
  else
    match seqLabels items_detected with
    | Except.error e => (db, Except.error e)
    | Except.ok labels =>
      let pair := addAlert db (fun i => unknownShelfAlert shelf_number labels false i now)
      let db2 := log_alert_action pair.1 now pair.2.id "created" none
        (some ("Unknown shelf alert: " ++ shelf_number))
      (db2, Except.ok pair.2)

/-- The misplaced-check loop (lines 231-251): falsy labels (null or
empty) are skipped; a non-matching label is upserted as a misplacement
alert. -/
def misplacedLoop (env : Env) (now : Nat) (shelf_name : String)
    (inventory_items : List Inventory) (expected_items : List String) :
    DB → List (Option String) → DB × List Alert
  | db, [] => (db, [])
  | db, none :: rest =>
    misplacedLoop env now shelf_name inventory_items expected_items db rest
  | db, some detected_item :: rest =>
    if !strTruthy detected_item then
      misplacedLoop env now shelf_name inventory_items expected_items db rest
    else if is_expected expected_items (strLower detected_item) then
      misplacedLoop env now shelf_name inventory_items expected_items db rest
    else
      let pair := create_misplacement_alert env now db shelf_name detected_item inventory_items
      let restPair := misplacedLoop env now shelf_name inventory_items expected_items pair.1 rest
      (restPair.1, pair.2 :: restPair.2)

/-- The per-item matcher of the missing check (lines 257-261): walks
the detected labels in order and raises `AttributeError` at a null
label (`detected.lower()`), short-circuiting at the first match. -/
def itemFoundIn (product_name : String) : List (Option String) → Except String Bool
  | [] => Except.ok false
  | none :: _ => Except.error "AttributeError: NoneType object has no attribute lower"
  | some detected :: rest =>
    if strContains (strLower detected) (strLower product_name) ||
       strContains (strLower product_name) (strLower detected) then Except.ok true
    else itemFoundIn product_name rest

/-- The missing-items collection loop (lines 255-263). -/
def missingLoop (items_detected : List (Option String)) :
    List Inventory → Except String (List String)
  | [] => Except.ok []
  | inv :: rest =>
    match itemFoundIn inv.product_name items_detected with
    | Except.error e => Except.error e
    | Except.ok true => missingLoop items_detected rest
    | Except.ok false => (missingLoop items_detected rest).map (fun l => inv.product_name :: l)

/-- `_check_misplacement`: nothing to do for an empty detected list;
otherwise flag unmatched labels as misplaced, then aggregate expected
items that match no label into one missing-items alert.  (The source
re-checks non-emptiness before the missing check; the outer early
return already guarantees it.) -/
def check_misplacement (env : Env) (now : Nat) (db : DB) (shelf_name : String)
    (items_detected : List (Option String)) (inventory_items : List Inventory) :
    DB × Except String (List Alert) :=
  if items_detected.isEmpty then (db, Except.ok [])
  else
    let expected_items := inventory_items.map (fun i => strLower i.product_name)
    let loopPair := misplacedLoop env now shelf_name inventory_items expected_items db items_detected
    match missingLoop items_detected inventory_items with
    | Except.error e => (loopPair.1, Except.error e)
    | Except.ok missing_items =>
      if missing_items.isEmpty then (loopPair.1, Except.ok loopPair.2)
      else
        match create_missing_items_alert env now loopPair.1 shelf_name missing_items with
        | (db2, some missing_alert) => (db2, Except.ok (loopPair.2 ++ [missing_alert]))
        | (db2, none) => (db2, Except.ok loopPair.2)

/-- `_process_shelf_data`: unknown shelves get exactly the
unknown-shelf alert; known shelves run the stock check then the
misplacement check over the shelf's inventory. -/
def process_shelf_data (env : Env) (now : Nat) (db : DB) (shelf_number : String)
    (empty_percentage : ℚ) (items_detected : List (Option String)) :
    DB × Except String (List Alert) :=
  let fill_percentage := 100 - empty_percentage
  if !env.shelves.contains shelf_number then
    match create_unknown_shelf_alert env now db shelf_number items_detected with
    | (db1, Except.ok alert) => (db1, Except.ok [alert])
    | (db1, Except.error e) => (db1, Except.error e)
  else
    let inventory_items := env.inventory.filter (fun i => i.shelf_name == shelf_number)
    let stockPair := check_stock_levels env now db shelf_number fill_percentage
      empty_percentage inventory_items
    let alerts0 := match stockPair.2 with
      | some a => [a]
      | none => []
    match check_misplacement env now stockPair.1 shelf_number items_detected inventory_items with
    | (db2, Except.error e) => (db2, Except.error e)
    | (db2, Except.ok misplacementAlerts) => (db2, Except.ok (alerts0 ++ misplacementAlerts))

/-- One parsed snapshot payload, after `process_json_data` has read
`shelf_number`, `empty_percentage` (default 0.0) and `items_detected`
(default `[]`) out of the JSON dict. -/
structure SnapshotInput where
  shelf_number : String
  empty_percentage : ℚ
  items_detected : List (Option String)

/-- The dict returned by `process_json_data`; `error` is only present
on the failure path. -/
structure ProcessResult where
  success : Bool
  alerts_created : Nat
  alerts : List Alert
  error : Option String
  errors : List String
deriving Repr, DecidableEq

/-- The per-shelf error string built at line 49. -/
def errMsg (shelf_number : String) (e : String) : String :=
  "Error processing shelf " ++ shelf_number ++ ": " ++ e

/-- The `ValueError` message for a missing `shelf_number`. -/
def missingShelfMsg : String :=
  "Invalid JSON structure: \x27shelf_number\x27 is required"

/-- `process_json_data`: the outer try raises on a falsy
`shelf_number` (rollback, `success: false`); the inner try catches any
error from `_process_shelf_data`, records it in `errors`, and falls
through to `db.commit()`, so session writes made before the error are
still published and the call reports `success: true`. -/
def process_json_data (env : Env) (now : Nat) (db : DB) (input : SnapshotInput) :
    DB × ProcessResult :=
  if !strTruthy input.shelf_number then
    (db, { success := false, alerts_created := 0, alerts := [],
           error := some missingShelfMsg, errors := [missingShelfMsg] })
  else
    match process_shelf_data env now db input.shelf_number input.empty_percentage
      input.items_detected with
    | (db1, Except.ok alerts_created) =>
      (db1, { success := true, alerts_created := alerts_created.length,
              alerts := alerts_created, error := none, errors := [] })
    | (db1, Except.error e) =>
      (db1, { success := true, alerts_created := 0, alerts := [],
              error := none, errors := [errMsg input.shelf_number e] })

/-- `acknowledge_alert`: legal only from ACTIVE; sets
`acknowledged_at`, logs `acknowledged`, commits, returns `True`; any
other case returns `False` without mutation. -/
def acknowledge_alert (db : DB) (now : Nat) (alert_id : Nat) (employee_id : String) :
    DB × Bool :=
  match db.alerts.find? (fun a => a.id == alert_id) with
  | some alert =>
    if alert.status == AlertStatus.active then
      let updated := { alert with
        status := AlertStatus.acknowledged,
        acknowledged_at := some now, updated_at := now }
      let db1 := { db with
        alerts := modifyFirst (fun a => a.id == alert_id) (fun _ => updated) db.alerts }
      (log_alert_action db1 now alert_id "acknowledged" (some employee_id)
        (some "Alert acknowledged"), true)
    else (db, false)
  | none => (db, false)

/-- `resolve_alert`: legal from ACTIVE or ACKNOWLEDGED; sets
`resolved_at`, logs `resolved`, commits, returns `True`; any other case
returns `False` without mutation. -/
def resolve_alert (db : DB) (now : Nat) (alert_id : Nat) (employee_id : String) :
    DB × Bool :=
  match db.alerts.find? (fun a => a.id == alert_id) with
  | some alert =>
    if alert.status == AlertStatus.active || alert.status == AlertStatus.acknowledged then
      let updated := { alert with
        status := AlertStatus.resolved,
        resolved_at := some now, updated_at := now }
      let db1 := { db with
        alerts := modifyFirst (fun a => a.id == alert_id) (fun _ => updated) db.alerts }
      (log_alert_action db1 now alert_id "resolved" (some employee_id)
        (some "Alert resolved"), true)
    else (db, false)
  | none => (db, false)

/-- One engine operation, for reasoning about operation sequences. -/
inductive Op
  | ingest (input : SnapshotInput)
  | ack (alert_id : Nat) (employee_id : String)
  | res (alert_id : Nat) (employee_id : String)

/-- The committed state after one operation. -/
def step (env : Env) (db : DB) : Nat × Op → DB
  | (now, Op.ingest input) => (process_json_data env now db input).1
  | (now, Op.ack i e) => (acknowledge_alert db now i e).1
  | (now, Op.res i e) => (resolve_alert db now i e).1

/-- The committed state after a sequence of timestamped operations. -/
def run (env : Env) (db : DB) (ops : List (Nat × Op)) : DB :=
  ops.foldl (step env) db

/-- The per-shelf stock-alert uniqueness invariant: at most one ACTIVE
shelf-level stock-tier alert per shelf. -/
def stockInvariant (db : DB) : Prop :=
  ∀ shelf : String, db.alerts.countP (isActiveShelfStockAlert shelf) ≤ 1

/-- Concrete environment for witnesses: two shelves, two catalog rows,
no staff assignments. -/
def envA : Env :=
  { shelves := ["A1", "B2"],
    inventory := [⟨"A1", "Apple", "Fruit", "R1"⟩, ⟨"B2", "Hammer Set", "Tools", "R2"⟩],
    assignments := [] }

/-- Empty initial session state. -/
def db0 : DB := { alerts := [], history := [], nextId := 1 }

/-- The error text raised by a null label inside the missing check. -/
def attrMsg : String := "AttributeError: NoneType object has no attribute lower"

/-- Snapshot whose detected list carries a JSON null: the stock phase
runs (fill 5, CRITICAL_STOCK) and the missing check then raises. -/
def cexInput : SnapshotInput :=
  { shelf_number := "A1", empty_percentage := 95, items_detected := [none] }

/-- A generic ACTIVE stock alert used as a witness fixture. -/
def alertW : Alert :=
  { id := 1, alert_type := AlertType.low_stock, status := AlertStatus.active,
    priority := AlertPriority.low, shelf_name := "A1", rack_name := none,
    product_number := none, product_name := none, category := some "Fruit",
    title := "t", message := "m", expected_product := none, actual_product := none,
    correct_location := none, empty_percentage := none, fill_percentage := none,
    assigned_staff_id := none, created_by := some "system",
    acknowledged_at := none, resolved_at := none, created_at := 0, updated_at := 0 }

/-- Session state holding just `alertW`. -/
def dbW : DB := { alerts := [alertW], history := [], nextId := 2 }

/-- Seven expected items on one shelf, for the missing-cap witness. -/
def invB7 : List Inventory :=
  [⟨"A1", "P1", "C", "R"⟩, ⟨"A1", "P2", "C", "R"⟩, ⟨"A1", "P3", "C", "R"⟩,
   ⟨"A1", "P4", "C", "R"⟩, ⟨"A1", "P5", "C", "R"⟩, ⟨"A1", "P6", "C", "R"⟩,
   ⟨"A1", "P7", "C", "R"⟩]

/-- Environment for the missing-cap witness. -/
def envB7 : Env := { shelves := ["A1"], inventory := invB7, assignments := [] }

theorem seqLabels_map_some (labels : List String) :
    seqLabels (labels.map some) = Except.ok labels := by
  induction labels with
  | nil => rfl
  | cons x xs ih => simp [seqLabels, ih, Except.map]

theorem find?_decomp {α : Type} {p : α → Bool} {l : List α} {a : α}
    (h : l.find? p = some a) :
    ∃ l1 l2, l = l1 ++ a :: l2 ∧ (∀ x ∈ l1, p x = false) ∧ p a = true := by
  induction l with
  | nil => simp [List.find?] at h
  | cons b rest ih =>
    by_cases hb : p b
    · refine ⟨[], rest, ?_, ?_, ?_⟩ <;> simp_all [List.find?]
    · have hb2 : p b = false := by simp [hb]
      rw [List.find?_cons, hb2] at h
      obtain ⟨l1, l2, hl, hnone, hpa⟩ := ih h
      exact ⟨b :: l1, l2, by simp [hl], by simpa [hb2] using hnone, hpa⟩

theorem modifyFirst_split (p : Alert → Bool) (f : Alert → Alert) (l1 l2 : List Alert)
    (a : Alert) (h1 : ∀ x ∈ l1, p x = false) (ha : p a = true) :
    modifyFirst p f (l1 ++ a :: l2) = l1 ++ f a :: l2 := by
  induction l1 with
  | nil => simp [modifyFirst, ha]
  | cons b rest ih =>
    have hb : p b = false := h1 b (by simp)
    simp only [List.cons_append, modifyFirst, hb, Bool.false_eq_true, if_false,
      List.cons.injEq, true_and]
    exact ih (fun x hx => h1 x (by simp [hx]))

theorem find?_split {α : Type} (p : α → Bool) (l1 l2 : List α) (a : α)
    (h1 : ∀ x ∈ l1, p x = false) (ha : p a = true) :
    (l1 ++ a :: l2).find? p = some a := by
  induction l1 with
  | nil => simp [List.find?_cons_of_pos, ha]
  | cons b rest ih =>
    have hb : p b = false := h1 b (by simp)
    rw [List.cons_append, List.find?_cons_of_neg _ (by simp [hb])]
    exact ih (fun x hx => h1 x (by simp [hx]))

/-- C1: the threshold classifier implements the spec table with the
default cut points {critical 10, high 25, medium 50, low 75}, using
strictly-less-than boundaries evaluated in ascending severity order:
fill = 0 gives OUT_OF_STOCK/CRITICAL, 0 < fill < 10 CRITICAL_STOCK,
10 ≤ fill < 25 HIGH_STOCK, 25 ≤ fill < 50 MEDIUM_STOCK,
50 ≤ fill < 75 LOW_STOCK, and fill ≥ 75 no alert. -/
theorem c1_classifier_table (fill : ℚ) (h0 : 0 ≤ fill) (h100 : fill ≤ 100) :
    (fill = 0 → classifyStock fill = some (AlertType.out_of_stock, AlertPriority.critical)) ∧
    (0 < fill → fill < 10 →
      classifyStock fill = some (AlertType.critical_stock, AlertPriority.critical)) ∧
    (10 ≤ fill → fill < 25 →
      classifyStock fill = some (AlertType.high_stock, AlertPriority.high)) ∧
    (25 ≤ fill → fill < 50 →
      classifyStock fill = some (AlertType.medium_stock, AlertPriority.medium)) ∧
    (50 ≤ fill → fill < 75 →
      classifyStock fill = some (AlertType.low_stock, AlertPriority.low)) ∧
    (75 ≤ fill → classifyStock fill = none) := by
  have hc : STOCK_THRESHOLDS.critical = 10 := rfl
  have hh : STOCK_THRESHOLDS.high = 25 := rfl
  have hm : STOCK_THRESHOLDS.medium = 50 := rfl
  have hl : STOCK_THRESHOLDS.low = 75 := rfl
  unfold classifyStock
  rw [hc, hh, hm, hl]
  refine ⟨?_, ?_, ?_, ?_, ?_, ?_⟩
  · rintro rfl
    norm_num
  · intro h1 h2
    rw [if_pos h2, if_pos h1]
  · intro h1 h2
    rw [if_neg (by linarith), if_pos h2]
  · intro h1 h2
    rw [if_neg (by linarith), if_neg (by linarith), if_pos h2]
  · intro h1 h2
    rw [if_neg (by linarith), if_neg (by linarith), if_neg (by linarith), if_pos h2]
  · intro h1
    rw [if_neg (by linarith), if_neg (by linarith), if_neg (by linarith),
      if_neg (by linarith)]

/-- Witness for C1 at the boundary value fill = 9.9. -/
theorem c1_classifier_table_witness :
    (0 : ℚ) ≤ 99/10 ∧ (99 : ℚ)/10 ≤ 100 ∧
    classifyStock (99/10) = some (AlertType.critical_stock, AlertPriority.critical) :=
  ⟨by norm_num, by norm_num,
    (c1_classifier_table (99/10) (by norm_num) (by norm_num)).2.1
      (by norm_num) (by norm_num)⟩

/-- C6: acknowledge succeeds exactly from ACTIVE (moving the alert to
ACKNOWLEDGED with `acknowledged_at` set), resolve succeeds exactly from
ACTIVE or ACKNOWLEDGED (moving it to RESOLVED with `resolved_at` set);
any other source status reports failure and leaves the state unchanged,
and a second acknowledge of the same alert fails. -/
theorem c6_lifecycle_transitions (db : DB) (now now2 : Nat) (i : Nat) (emp emp2 : String) :
    ((acknowledge_alert db now i emp).2 = true ↔
      ∃ a, db.alerts.find? (fun x => x.id == i) = some a ∧
        a.status = AlertStatus.active) ∧
    ((acknowledge_alert db now i emp).2 = false → (acknowledge_alert db now i emp).1 = db) ∧
    ((resolve_alert db now i emp).2 = true ↔
      ∃ a, db.alerts.find? (fun x => x.id == i) = some a ∧
        (a.status = AlertStatus.active ∨ a.status = AlertStatus.acknowledged)) ∧
    ((resolve_alert db now i emp).2 = false → (resolve_alert db now i emp).1 = db) ∧
    (∀ a, db.alerts.find? (fun x => x.id == i) = some a → a.status = AlertStatus.active →
      (acknowledge_alert db now i emp).1.alerts.find? (fun x => x.id == i) =
        some { a with
          status := AlertStatus.acknowledged,
          acknowledged_at := some now, updated_at := now }) ∧
    (∀ a, db.alerts.find? (fun x => x.id == i) = some a →
      (a.status = AlertStatus.active ∨ a.status = AlertStatus.acknowledged) →
      (resolve_alert db now i emp).1.alerts.find? (fun x => x.id == i) =
        some { a with
          status := AlertStatus.resolved,
          resolved_at := some now, updated_at := now }) ∧
    ((acknowledge_alert db now i emp).2 = true →
      (acknowledge_alert (acknowledge_alert db now i emp).1 now2 i emp2).2 = false) := by
  have hack : ∀ a, db.alerts.find? (fun x => x.id == i) = some a →
      a.status = AlertStatus.active →
      (acknowledge_alert db now i emp).1.alerts.find? (fun x => x.id == i) =
        some { a with
          status := AlertStatus.acknowledged,
          acknowledged_at := some now, updated_at := now } := by
    intro a hfind hst
    obtain ⟨l1, l2, hl, hnone, hpa⟩ := find?_decomp hfind
    have hcond : (a.status == AlertStatus.active) = true := by rw [hst]; decide
    simp only [acknowledge_alert, hfind, hcond, if_true, log_alert_action]
    rw [hl, modifyFirst_split _ _ _ _ _ hnone hpa]
    exact find?_split _ _ _ _ hnone (by simpa using hpa)
  have hres : ∀ a, db.alerts.find? (fun x => x.id == i) = some a →
      (a.status = AlertStatus.active ∨ a.status = AlertStatus.acknowledged) →
      (resolve_alert db now i emp).1.alerts.find? (fun x => x.id == i) =
        some { a with
          status := AlertStatus.resolved,
          resolved_at := some now, updated_at := now } := by
    intro a hfind hst
    obtain ⟨l1, l2, hl, hnone, hpa⟩ := find?_decomp hfind
    have hcond : (a.status == AlertStatus.active || a.status == AlertStatus.acknowledged) = true := by
      rcases hst with h | h <;> rw [h] <;> decide
    simp only [resolve_alert, hfind, hcond, if_true, log_alert_action]
    rw [hl, modifyFirst_split _ _ _ _ _ hnone hpa]
    exact find?_split _ _ _ _ hnone (by simpa using hpa)
  refine ⟨?_, ?_, ?_, ?_, hack, hres, ?_⟩
  · constructor
    · intro hsucc
      cases hfind : db.alerts.find? (fun x => x.id == i) with
      | none => simp [acknowledge_alert, hfind] at hsucc
      | some a =>
        by_cases hst : a.status = AlertStatus.active
        · exact ⟨a, rfl, hst⟩
        · simp [acknowledge_alert, hfind,
            show (a.status == AlertStatus.active) = false by rw [beq_eq_false_iff_ne]; exact hst] at hsucc
    · rintro ⟨b, hb, hbst⟩
      simp [acknowledge_alert, hb, hbst]
  · intro hfail
    cases hfind : db.alerts.find? (fun x => x.id == i) with
    | none => simp [acknowledge_alert, hfind]
    | some a =>
      by_cases hst : a.status = AlertStatus.active
      · simp [acknowledge_alert, hfind, hst] at hfail
      · simp [acknowledge_alert, hfind,
          show (a.status == AlertStatus.active) = false by rw [beq_eq_false_iff_ne]; exact hst]
  · constructor
    · intro hsucc
      cases hfind : db.alerts.find? (fun x => x.id == i) with
      | none => simp [resolve_alert, hfind] at hsucc
      | some a =>
        by_cases hst : a.status = AlertStatus.active ∨ a.status = AlertStatus.acknowledged
        · exact ⟨a, rfl, hst⟩
        · have hcond : (a.status == AlertStatus.active || a.status == AlertStatus.acknowledged) = false := by
            push_neg at hst
            simp [show a.status ≠ AlertStatus.active from hst.1,
              show a.status ≠ AlertStatus.acknowledged from hst.2]
          simp [resolve_alert, hfind, hcond] at hsucc
    · rintro ⟨b, hb, hbst⟩
      have hcond : (b.status == AlertStatus.active || b.status == AlertStatus.acknowledged) = true := by
        rcases hbst with h | h <;> rw [h] <;> decide
      simp [resolve_alert, hb, hcond]
  · intro hfail
    cases hfind : db.alerts.find? (fun x => x.id == i) with
    | none => simp [resolve_alert, hfind]
    | some a =>
      by_cases hst : a.status = AlertStatus.active ∨ a.status = AlertStatus.acknowledged
      · have hcond : (a.status == AlertStatus.active || a.status == AlertStatus.acknowledged) = true := by
          rcases hst with h | h <;> rw [h] <;> decide
        simp [resolve_alert, hfind, hcond] at hfail
      · have hcond : (a.status == AlertStatus.active || a.status == AlertStatus.acknowledged) = false := by
          push_neg at hst
          simp [show a.status ≠ AlertStatus.active from hst.1,
            show a.status ≠ AlertStatus.acknowledged from hst.2]
        simp [resolve_alert, hfind, hcond]
  · intro hsucc
    cases hfind : db.alerts.find? (fun x => x.id == i) with
    | none => simp [acknowledge_alert, hfind] at hsucc
    | some a =>
      by_cases hst : a.status = AlertStatus.active
      · have h2 := hack a hfind hst
        set S := (acknowledge_alert db now i emp).1 with hS
        simp [acknowledge_alert, h2]
      · simp [acknowledge_alert, hfind,
          show (a.status == AlertStatus.active) = false by rw [beq_eq_false_iff_ne]; exact hst] at hsucc

/-- Witness for C6: acknowledging the active fixture alert succeeds
once and fails when repeated. -/
theorem c6_lifecycle_transitions_witness :
    (acknowledge_alert dbW 5 1 "e1").2 = true ∧
    (acknowledge_alert (acknowledge_alert dbW 5 1 "e1").1 6 1 "e2").2 = false := by
  have h := c6_lifecycle_transitions dbW 5 6 1 "e1" "e2"
  have h1 : (acknowledge_alert dbW 5 1 "e1").2 = true :=
    h.1.mpr ⟨alertW, by decide, by decide⟩
  exact ⟨h1, h.2.2.2.2.2.2 h1⟩

/-- C9: a snapshot for a shelf id absent from the shelf catalog skips
stock and misplacement processing and creates exactly one alert:
MISPLACED_ITEM, PENDING, LOW priority, `actual_product` the
comma-joined detected labels (none when the list is empty), no staff
assignment, with a single `created` history entry. -/
theorem c9_unknown_shelf (env : Env) (now : Nat) (db : DB) (shelf_number : String)
    (empty_percentage : ℚ) (labels : List String)
    (h : env.shelves.contains shelf_number = false) :
    ∃ a, process_shelf_data env now db shelf_number empty_percentage (labels.map some) =
      ({ alerts := db.alerts ++ [a],
         history := db.history ++
           [⟨a.id, "created", none, some ("Unknown shelf alert: " ++ shelf_number), now⟩],
         nextId := db.nextId + 1 }, Except.ok [a]) ∧
      a.id = db.nextId ∧ a.alert_type = AlertType.misplaced_item ∧
      a.status = AlertStatus.pending ∧ a.priority = AlertPriority.low ∧
      a.actual_product =
        (if labels.isEmpty then none else some (String.intercalate ", " labels)) ∧
      a.assigned_staff_id = none := by
  refine ⟨unknownShelfAlert shelf_number labels labels.isEmpty db.nextId now,
    ?_, ?_, ?_, ?_, ?_, ?_, ?_⟩
  · simp only [process_shelf_data]
    rw [if_pos (show (!env.shelves.contains shelf_number) = true by rw [h]; decide)]
    cases labels with
    | nil =>
      simp [create_unknown_shelf_alert, addAlert, log_alert_action, unknownShelfAlert]
    | cons x xs =>
      have hseq : seqLabels (some x :: List.map some xs) = Except.ok (x :: xs) :=
        seqLabels_map_some (x :: xs)
      simp [create_unknown_shelf_alert, addAlert, log_alert_action, unknownShelfAlert, hseq]
  · rfl
  · rfl
  · rfl
  · rfl
  · cases labels with
    | nil => simp [unknownShelfAlert]
    | cons x xs => simp [unknownShelfAlert]
  · rfl

/-- Witness for C9 on a shelf id outside the catalog. -/
theorem c9_unknown_shelf_witness :
    envA.shelves.contains "Z9" = false ∧
    ∃ a, process_shelf_data envA 7 db0 "Z9" 40 (["X", "Y"].map some) =
      ({ alerts := db0.alerts ++ [a],
         history := db0.history ++
           [⟨a.id, "created", none, some ("Unknown shelf alert: " ++ "Z9"), 7⟩],
         nextId := db0.nextId + 1 }, Except.ok [a]) ∧
      a.id = db0.nextId ∧ a.alert_type = AlertType.misplaced_item ∧
      a.status = AlertStatus.pending ∧ a.priority = AlertPriority.low ∧
      a.actual_product =
        (if (["X", "Y"] : List String).isEmpty then none
         else some (String.intercalate ", " ["X", "Y"])) ∧
      a.assigned_staff_id = none :=
  ⟨by decide, c9_unknown_shelf envA 7 db0 "Z9" 40 ["X", "Y"] (by decide)⟩

theorem classify_fill_five :
    classifyStock ((100 : ℚ) - 95) =
      some (AlertType.critical_stock, AlertPriority.critical) := by
  have h5 : (100 : ℚ) - 95 = 5 := by norm_num
  have hcr : STOCK_THRESHOLDS.critical = 10 := rfl
  rw [h5]
  unfold classifyStock
  rw [hcr, if_pos (by norm_num : (5 : ℚ) < 10), if_pos (by norm_num : (5 : ℚ) > 0)]

theorem cex_shelf_error :
    (process_shelf_data envA 100 db0 "A1" 95 [none]).2 = Except.error attrMsg := by
  simp [process_shelf_data, envA, db0, check_stock_levels, classify_fill_five,
    check_misplacement, misplacedLoop, missingLoop, itemFoundIn, attrMsg,
    addAlert, log_alert_action, categoryText, strTruthy, get_assigned_staff_id]

/-- C2 counterexample: for the snapshot `cexInput` (known shelf A1,
fill 5, detected list `[null]`) the missing check raises an unhandled
`AttributeError` after the stock upsert has written a CRITICAL_STOCK
alert; the call nevertheless commits, reports `success: true`, and the
alert and its history row persist — so ingestion is not atomic and a
failed snapshot does leave partial writes. -/
theorem c2_atomicity_counterexample :
    (process_shelf_data envA 100 db0 "A1" 95 [none]).2 = Except.error attrMsg ∧
    (process_json_data envA 100 db0 cexInput).2.success = true ∧
    (process_json_data envA 100 db0 cexInput).2.errors = [errMsg "A1" attrMsg] ∧
    ((process_json_data envA 100 db0 cexInput).1.alerts.map
      (fun a => (a.id, a.alert_type, a.status))) =
      [(1, AlertType.critical_stock, AlertStatus.active)] ∧
    ((process_json_data envA 100 db0 cexInput).1.history.map
      (fun h => (h.alert_id, h.action))) = [(1, "created")] := by
  refine ⟨cex_shelf_error, ?_, ?_, ?_, ?_⟩ <;>
    simp [process_json_data, cexInput, strTruthy, cex_shelf_error, errMsg,
      process_shelf_data, envA, db0, check_stock_levels, classify_fill_five,
      check_misplacement, misplacedLoop, missingLoop, itemFoundIn, attrMsg,
      addAlert, log_alert_action, categoryText, get_assigned_staff_id,
      stockAlertRec]

/-- C2 amended: an unhandled error raised inside per-shelf processing
(classifier evaluation, misplacement detection, or an upsert) is caught
by the inner handler of `process_json_data`: the call still commits the
session — so writes made before the error persist — and reports
`success: true` with the message collected in `errors` and
`alerts_created = 0`.  Only a falsy `shelf_number` (and a commit-time
storage failure, outside this model) reaches the outer handler, which
rolls the session back and reports `success: false`. -/
theorem c2_error_handling_amended (env : Env) (now : Nat) (db : DB) (input : SnapshotInput) :
    (∀ e db1, strTruthy input.shelf_number = true →
      process_shelf_data env now db input.shelf_number input.empty_percentage
        input.items_detected = (db1, Except.error e) →
      process_json_data env now db input =
        (db1, { success := true, alerts_created := 0, alerts := [], error := none,
                errors := [errMsg input.shelf_number e] })) ∧
    (strTruthy input.shelf_number = false →
      process_json_data env now db input =
        (db, { success := false, alerts_created := 0, alerts := [],
               error := some missingShelfMsg, errors := [missingShelfMsg] })) := by
  constructor
  · intro e db1 hsh h
    unfold process_json_data
    rw [if_neg (by rw [hsh]; decide), h]
  · intro hsh
    unfold process_json_data
    rw [if_pos (by rw [hsh]; decide)]

theorem charLower_idem (c : Char) : charLower (charLower c) = charLower c := by
  rcases hfind : lowerPairs.find? (fun p => p.1 == c) with _ | p
  · have h1 : charLower c = c := by unfold charLower; rw [hfind]; rfl
    rw [h1]
    exact h1
  · have hmem := List.mem_of_find?_eq_some hfind
    have h1 : charLower c = p.2 := by unfold charLower; rw [hfind]; rfl
    rw [h1]
    clear hfind h1
    fin_cases hmem <;> decide

theorem strLower_idem (s : String) : strLower (strLower s) = strLower s := by
  unfold strLower
  simp [List.map_map, Function.comp_def, charLower_idem]

theorem strTruthy_iff (s : String) : strTruthy s = true ↔ s ≠ "" := by
  constructor
  · intro h hcon
    subst hcon
    simp [strTruthy] at h
  · intro h
    cases hd : s.data with
    | nil => exact absurd (String.ext (show s.data = "".data by rw [hd])) h
    | cons c cs => simp [strTruthy, hd]

theorem head?_filter_eq_find? {α : Type} (p : α → Bool) (l : List α) :
    (l.filter p).head? = l.find? p := by
  induction l with
  | nil => rfl
  | cons b rest ih =>
    by_cases hb : p b = true
    · simp [List.filter_cons, hb, List.find?_cons_of_pos]
    · rw [List.filter_cons_of_neg (by simp [hb]), List.find?_cons_of_neg _ (by simp [hb])]
      exact ih

theorem is_expected_iff (inv : List Inventory) (l : String) :
    is_expected (inv.map (fun i => strLower i.product_name)) (strLower l) = true ↔
      ∃ it ∈ inv,
        (strContains (strLower it.product_name) (strLower l) = true ∨
         strContains (strLower l) (strLower it.product_name) = true ∨
         strLower l = strLower it.product_name) := by
  unfold is_expected
  rw [List.any_eq_true]
  constructor
  · rintro ⟨e, he, hcond⟩
    rw [List.mem_map] at he
    obtain ⟨it, hit, rfl⟩ := he
    refine ⟨it, hit, ?_⟩
    simpa [strLower_idem, Bool.or_eq_true, beq_iff_eq, or_assoc] using hcond
  · rintro ⟨it, hit, hcond⟩
    refine ⟨strLower it.product_name, List.mem_map_of_mem _ hit, ?_⟩
    simpa [strLower_idem, Bool.or_eq_true, beq_iff_eq, or_assoc] using hcond

theorem isStockTypeB_of_misplaced (a : Alert)
    (h : a.alert_type = AlertType.misplaced_item) : isStockTypeB a = false := by
  simp [isStockTypeB, h, stockTypes]

theorem filter_modifyFirst_eq (p q : Alert → Bool) (f : Alert → Alert) (l : List Alert)
    (h : ∀ a, q a = true → p a = false ∧ p (f a) = false) :
    (modifyFirst q f l).filter p = l.filter p := by
  induction l with
  | nil => rfl
  | cons b rest ih =>
    by_cases hq : q b = true
    · obtain ⟨h1, h2⟩ := h b hq
      rw [show modifyFirst q f (b :: rest) = f b :: rest by simp [modifyFirst, hq]]
      rw [List.filter_cons_of_neg (by simp [h2]), List.filter_cons_of_neg (by simp [h1])]
    · rw [show modifyFirst q f (b :: rest) = b :: modifyFirst q f rest by
        simp [modifyFirst, hq]]
      by_cases hp : p b = true
      · rw [List.filter_cons_of_pos (by simp [hp]), List.filter_cons_of_pos (by simp [hp]), ih]
      · rw [List.filter_cons_of_neg (by simp [hp]), List.filter_cons_of_neg (by simp [hp]), ih]

theorem misplacedKey_fields {shelf detected : String} {a : Alert}
    (h : misplacedKey shelf detected a = true) :
    a.shelf_name = shelf ∧ a.alert_type = AlertType.misplaced_item ∧
    a.actual_product = some detected ∧ a.status = AlertStatus.active := by
  simp only [misplacedKey, Bool.and_eq_true, beq_iff_eq] at h
  exact ⟨h.1.1.1, h.1.1.2, h.1.2, h.2⟩

theorem missingKey_fields {shelf : String} {a : Alert}
    (h : missingKey shelf a = true) :
    a.shelf_name = shelf ∧ a.alert_type = AlertType.misplaced_item ∧
    strContains a.title "MISSING ITEMS" = true ∧ a.status = AlertStatus.active := by
  simp only [missingKey, Bool.and_eq_true, beq_iff_eq] at h
  exact ⟨h.1.1.1, h.1.1.2, h.1.2, h.2⟩

theorem create_misplacement_result (env : Env) (now : Nat) (db : DB)
    (shelf detected : String) (inv : List Inventory) :
    (create_misplacement_alert env now db shelf detected inv).2.actual_product
        = some detected ∧
    (create_misplacement_alert env now db shelf detected inv).2.correct_location
        = find_correct_location env detected ∧
    (create_misplacement_alert env now db shelf detected inv).2.alert_type
        = AlertType.misplaced_item := by
  unfold create_misplacement_alert
  cases hfind : db.alerts.find? (misplacedKey shelf detected) with
  | none => simp [addAlert, log_alert_action, misplacedAlertRec]
  | some existing =>
    obtain ⟨_, hty, hact, _⟩ := misplacedKey_fields (List.find?_some hfind)
    simp [log_alert_action, misplacedUpdate, hact, hty]

theorem create_misplacement_db (env : Env) (now : Nat) (db : DB)
    (shelf detected : String) (inv : List Inventory) :
    ∀ a ∈ (create_misplacement_alert env now db shelf detected inv).1.alerts,
      a ∈ db.alerts ∨
      (a.actual_product = some detected ∧
       a.correct_location = find_correct_location env detected ∧
       a.alert_type = AlertType.misplaced_item) := by
  unfold create_misplacement_alert
  cases hfind : db.alerts.find? (misplacedKey shelf detected) with
  | none =>
    intro a ha
    simp only [addAlert, log_alert_action] at ha
    rcases List.mem_append.mp ha with hin | hin
    · exact Or.inl hin
    · right
      rw [List.mem_singleton.mp hin]
      exact ⟨rfl, rfl, rfl⟩
  | some existing =>
    obtain ⟨l1, l2, hl, hnone, hpa⟩ := find?_decomp hfind
    obtain ⟨_, hty, hact, _⟩ := misplacedKey_fields hpa
    intro a ha
    simp only [log_alert_action] at ha
    rw [hl, modifyFirst_split _ _ _ _ _ hnone hpa] at ha
    rcases List.mem_append.mp ha with hin | hin
    · exact Or.inl (by rw [hl]; exact List.mem_append_left _ hin)
    · rcases List.mem_cons.mp hin with heq | hin2
      · right
        rw [heq]
        exact ⟨by simp [misplacedUpdate, hact], by simp [misplacedUpdate], by simp [misplacedUpdate, hty]⟩
      · exact Or.inl (by rw [hl]; exact List.mem_append_right _ (List.mem_cons_of_mem _ hin2))

theorem create_misplacement_frame (env : Env) (now : Nat) (db : DB)
    (shelf detected : String) (inv : List Inventory) :
    (∃ hs, (create_misplacement_alert env now db shelf detected inv).1.history =
      db.history ++ hs) ∧
    (create_misplacement_alert env now db shelf detected inv).1.alerts.filter isStockTypeB =
      db.alerts.filter isStockTypeB := by
  unfold create_misplacement_alert
  cases hfind : db.alerts.find? (misplacedKey shelf detected) with
  | none =>
    constructor
    · exact ⟨_, rfl⟩
    · simp only [addAlert, log_alert_action]
      rw [List.filter_append]
      rw [List.filter_cons_of_neg (by
        simp [isStockTypeB_of_misplaced, misplacedAlertRec])]
      simp
  | some existing =>
    obtain ⟨_, hty, hact, _⟩ := misplacedKey_fields (List.find?_some hfind)
    constructor
    · exact ⟨_, rfl⟩
    · simp only [log_alert_action]
      apply filter_modifyFirst_eq
      intro a hq
      obtain ⟨_, hty2, _, _⟩ := misplacedKey_fields hq
      exact ⟨isStockTypeB_of_misplaced a hty2,
        isStockTypeB_of_misplaced _ (by simp [misplacedUpdate, hty])⟩

theorem misplacedLoop_cons_none (env : Env) (now : Nat) (shelf : String)
    (inv : List Inventory) (expected : List String) (db : DB)
    (rest : List (Option String)) :
    misplacedLoop env now shelf inv expected db (none :: rest) =
      misplacedLoop env now shelf inv expected db rest := rfl

theorem misplacedLoop_cons_falsy (env : Env) (now : Nat) (shelf : String)
    (inv : List Inventory) (expected : List String) (db : DB) (x : String)
    (rest : List (Option String)) (h : strTruthy x = false) :
    misplacedLoop env now shelf inv expected db (some x :: rest) =
      misplacedLoop env now shelf inv expected db rest := by
  simp [misplacedLoop, h]

theorem misplacedLoop_cons_expected (env : Env) (now : Nat) (shelf : String)
    (inv : List Inventory) (expected : List String) (db : DB) (x : String)
    (rest : List (Option String)) (ht : strTruthy x = true)
    (he : is_expected expected (strLower x) = true) :
    misplacedLoop env now shelf inv expected db (some x :: rest) =
      misplacedLoop env now shelf inv expected db rest := by
  simp [misplacedLoop, ht, he]

theorem misplacedLoop_cons_flag (env : Env) (now : Nat) (shelf : String)
    (inv : List Inventory) (expected : List String) (db : DB) (x : String)
    (rest : List (Option String)) (ht : strTruthy x = true)
    (he : is_expected expected (strLower x) = false) :
    misplacedLoop env now shelf inv expected db (some x :: rest) =
      ((misplacedLoop env now shelf inv expected
          (create_misplacement_alert env now db shelf x inv).1 rest).1,
       (create_misplacement_alert env now db shelf x inv).2 ::
        (misplacedLoop env now shelf inv expected
          (create_misplacement_alert env now db shelf x inv).1 rest).2) := by
  simp [misplacedLoop, ht, he]

theorem misplacedLoop_spec (env : Env) (now : Nat) (shelf : String)
    (inv : List Inventory) (expected : List String) (items : List (Option String)) :
    ∀ db : DB,
    (∀ l : String,
      ((∃ a ∈ (misplacedLoop env now shelf inv expected db items).2,
          a.actual_product = some l) ↔ flaggedMisplaced expected items l)) ∧
    (∀ a ∈ (misplacedLoop env now shelf inv expected db items).2,
      ∃ l, a.actual_product = some l ∧ flaggedMisplaced expected items l ∧
        a.correct_location = find_correct_location env l ∧
        a.alert_type = AlertType.misplaced_item) := by
  induction items with
  | nil =>
    intro db
    constructor
    · intro l
      simp [misplacedLoop, flaggedMisplaced]
    · intro a ha
      simp [misplacedLoop] at ha
  | cons x rest ih =>
    intro db
    match x with
    | none =>
      rw [misplacedLoop_cons_none]
      constructor
      · intro l
        rw [(ih db).1 l]
        simp [flaggedMisplaced]
      · intro a ha
        obtain ⟨l, h1, h2, h3, h4⟩ := (ih db).2 a ha
        exact ⟨l, h1, by simpa [flaggedMisplaced] using h2, h3, h4⟩
    | some x =>
      by_cases ht : strTruthy x = true
      · by_cases he : is_expected expected (strLower x) = true
        · rw [misplacedLoop_cons_expected env now shelf inv expected db x rest ht he]
          constructor
          · intro l
            rw [(ih db).1 l]
            unfold flaggedMisplaced
            constructor
            · rintro ⟨h1, h2, h3⟩
              exact ⟨List.mem_cons_of_mem _ h1, h2, h3⟩
            · rintro ⟨h1, h2, h3⟩
              rcases List.mem_cons.mp h1 with heq | hmem
              · have hlx := Option.some.inj heq
                rw [hlx] at h3
                exact absurd he (by simp [h3])
              · exact ⟨hmem, h2, h3⟩
          · intro a ha
            obtain ⟨l, h1, h2, h3, h4⟩ := (ih db).2 a ha
            exact ⟨l, h1, ⟨List.mem_cons_of_mem _ h2.1, h2.2.1, h2.2.2⟩, h3, h4⟩
        · rw [misplacedLoop_cons_flag env now shelf inv expected db x rest ht
            (by simpa using he)]
          have hx := create_misplacement_result env now db shelf x inv
          set db1 := (create_misplacement_alert env now db shelf x inv).1 with hdb1
          constructor
          · intro l
            constructor
            · rintro ⟨a, ha, hal⟩
              rcases List.mem_cons.mp ha with heq | hmem
              · have : l = x := by
                  have := hx.1
                  rw [← heq] at this
                  rw [hal] at this
                  exact Option.some.inj this
                subst this
                exact ⟨List.mem_cons_self _ _, ht, by simpa using he⟩
              · obtain ⟨h1, h2, h3⟩ := ((ih db1).1 l).mp ⟨a, hmem, hal⟩
                exact ⟨List.mem_cons_of_mem _ h1, h2, h3⟩
            · rintro ⟨h1, h2, h3⟩
              rcases List.mem_cons.mp h1 with heq | hmem
              · have hlx : l = x := Option.some.inj heq
                subst hlx
                exact ⟨_, List.mem_cons_self _ _, hx.1⟩
              · obtain ⟨a, ha, hal⟩ := ((ih db1).1 l).mpr ⟨hmem, h2, h3⟩
                exact ⟨a, List.mem_cons_of_mem _ ha, hal⟩
          · intro a ha
            rcases List.mem_cons.mp ha with heq | hmem
            · refine ⟨x, ?_, ⟨List.mem_cons_self _ _, ht, by simpa using he⟩, ?_, ?_⟩
              · rw [heq]; exact hx.1
              · rw [heq]; exact hx.2.1
              · rw [heq]; exact hx.2.2
            · obtain ⟨l, h1, h2, h3, h4⟩ := (ih db1).2 a hmem
              exact ⟨l, h1, ⟨List.mem_cons_of_mem _ h2.1, h2.2.1, h2.2.2⟩, h3, h4⟩
      · rw [misplacedLoop_cons_falsy env now shelf inv expected db x rest
          (by simpa using ht)]
        constructor
        · intro l
          rw [(ih db).1 l]
          unfold flaggedMisplaced
          constructor
          · rintro ⟨h1, h2, h3⟩
            exact ⟨List.mem_cons_of_mem _ h1, h2, h3⟩
          · rintro ⟨h1, h2, h3⟩
            rcases List.mem_cons.mp h1 with heq | hmem
            · exact absurd ((Option.some.inj heq) ▸ h2) (by simpa using ht)
            · exact ⟨hmem, h2, h3⟩
        · intro a ha
          obtain ⟨l, h1, h2, h3, h4⟩ := (ih db).2 a ha
          exact ⟨l, h1, ⟨List.mem_cons_of_mem _ h2.1, h2.2.1, h2.2.2⟩, h3, h4⟩

theorem misplacedLoop_cons_flag_fst (env : Env) (now : Nat) (shelf : String)
    (inv : List Inventory) (expected : List String) (db : DB) (x : String)
    (rest : List (Option String)) (ht : strTruthy x = true)
    (he : is_expected expected (strLower x) = false) :
    (misplacedLoop env now shelf inv expected db (some x :: rest)).1 =
      (misplacedLoop env now shelf inv expected
        (create_misplacement_alert env now db shelf x inv).1 rest).1 := by
  rw [misplacedLoop_cons_flag env now shelf inv expected db x rest ht he]

theorem itemFoundIn_map_some (name : String) (labels : List String) :
    itemFoundIn name (labels.map some) =
      Except.ok (labels.any (fun detected =>
        strContains (strLower detected) (strLower name) ||
        strContains (strLower name) (strLower detected))) := by
  induction labels with
  | nil => rfl
  | cons x xs ih =>
    cases h : (strContains (strLower x) (strLower name) ||
        strContains (strLower name) (strLower x)) with
    | true => simp [itemFoundIn, h]
    | false => simp [itemFoundIn, h, ih]

theorem missingLoop_map_some (labels : List String) (inv : List Inventory) :
    missingLoop (labels.map some) inv =
      Except.ok ((inv.filter (fun it =>
        !(labels.any (fun detected =>
          strContains (strLower detected) (strLower it.product_name) ||
          strContains (strLower it.product_name) (strLower detected))))).map
        (fun it => it.product_name)) := by
  induction inv with
  | nil => rfl
  | cons it rest ih =>
    simp only [missingLoop, itemFoundIn_map_some]
    cases h : labels.any (fun detected =>
        strContains (strLower detected) (strLower it.product_name) ||
        strContains (strLower it.product_name) (strLower detected)) with
    | true => simp [h, List.filter_cons, ih]
    | false => simp [h, List.filter_cons, ih, Except.map]

theorem create_missing_cases (env : Env) (now : Nat) (db : DB) (shelf : String)
    (ms : List String) (hms : ¬ ms.isEmpty = true) :
    ∃ m, (create_missing_items_alert env now db shelf ms).2 = some m ∧
      m.message = missingMessage shelf ms ∧ m.title = missingTitle shelf ∧
      m.alert_type = AlertType.misplaced_item ∧ m.status = AlertStatus.active ∧
      (m.actual_product = none ∨
        ∃ e ∈ db.alerts, missingKey shelf e = true ∧
          m.actual_product = e.actual_product ∧
          m.correct_location = e.correct_location) := by
  unfold create_missing_items_alert
  rw [if_neg hms]
  cases hfind : db.alerts.find? (missingKey shelf) with
  | none =>
    refine ⟨missingAlertRec env shelf ms db.nextId now, ?_, ?_, ?_, ?_, ?_, Or.inl ?_⟩ <;>
      simp [addAlert, log_alert_action, missingAlertRec]
  | some existing =>
    obtain ⟨hsh, hty, htl, hstat⟩ := missingKey_fields (List.find?_some hfind)
    refine ⟨missingUpdate shelf ms now existing, ?_, ?_, ?_, ?_, ?_,
      Or.inr ⟨existing, List.mem_of_find?_eq_some hfind, List.find?_some hfind, ?_, ?_⟩⟩ <;>
      simp [log_alert_action, missingUpdate, hty, hstat]

theorem create_missing_frame (env : Env) (now : Nat) (db : DB) (shelf : String)
    (ms : List String) :
    (∃ hs, (create_missing_items_alert env now db shelf ms).1.history = db.history ++ hs) ∧
    (create_missing_items_alert env now db shelf ms).1.alerts.filter isStockTypeB =
      db.alerts.filter isStockTypeB := by
  unfold create_missing_items_alert
  by_cases hms : ms.isEmpty = true
  · rw [if_pos hms]
    exact ⟨⟨[], by simp⟩, rfl⟩
  · rw [if_neg hms]
    cases hfind : db.alerts.find? (missingKey shelf) with
    | none =>
      constructor
      · exact ⟨_, rfl⟩
      · simp only [addAlert, log_alert_action]
        rw [List.filter_append]
        rw [List.filter_cons_of_neg (by
          simp [isStockTypeB_of_misplaced, missingAlertRec])]
        simp
    | some existing =>
      obtain ⟨_, hty, _, _⟩ := missingKey_fields (List.find?_some hfind)
      constructor
      · exact ⟨_, rfl⟩
      · simp only [log_alert_action]
        apply filter_modifyFirst_eq
        intro a hq
        obtain ⟨_, hty2, _, _⟩ := missingKey_fields hq
        exact ⟨isStockTypeB_of_misplaced a hty2,
          isStockTypeB_of_misplaced _ (by simp [missingUpdate, hty])⟩

theorem misplacedLoop_alerts (env : Env) (now : Nat) (shelf : String)
    (inv : List Inventory) (expected : List String) (items : List (Option String)) :
    ∀ db : DB, ∀ a ∈ (misplacedLoop env now shelf inv expected db items).1.alerts,
      a ∈ db.alerts ∨
      ∃ l, a.actual_product = some l ∧ flaggedMisplaced expected items l ∧
        a.correct_location = find_correct_location env l ∧
        a.alert_type = AlertType.misplaced_item := by
  induction items with
  | nil =>
    intro db a ha
    exact Or.inl ha
  | cons x rest ih =>
    intro db a ha
    match x with
    | none =>
      rw [misplacedLoop_cons_none] at ha
      rcases ih db a ha with h | ⟨l, h1, h2, h3, h4⟩
      · exact Or.inl h
      · exact Or.inr ⟨l, h1, ⟨List.mem_cons_of_mem _ h2.1, h2.2.1, h2.2.2⟩, h3, h4⟩
    | some x =>
      by_cases ht : strTruthy x = true
      · by_cases he : is_expected expected (strLower x) = true
        · rw [misplacedLoop_cons_expected env now shelf inv expected db x rest ht he] at ha
          rcases ih db a ha with h | ⟨l, h1, h2, h3, h4⟩
          · exact Or.inl h
          · exact Or.inr ⟨l, h1, ⟨List.mem_cons_of_mem _ h2.1, h2.2.1, h2.2.2⟩, h3, h4⟩
        · rw [misplacedLoop_cons_flag_fst env now shelf inv expected db x rest ht
            (by simpa using he)] at ha
          rcases ih _ a ha with h | ⟨l, h1, h2, h3, h4⟩
          · rcases create_misplacement_db env now db shelf x inv a h with h5 | ⟨h5, h6, h7⟩
            · exact Or.inl h5
            · exact Or.inr ⟨x, h5,
                ⟨List.mem_cons_self _ _, ht, by simpa using he⟩, h6, h7⟩
          · exact Or.inr ⟨l, h1, ⟨List.mem_cons_of_mem _ h2.1, h2.2.1, h2.2.2⟩, h3, h4⟩
      · rw [misplacedLoop_cons_falsy env now shelf inv expected db x rest
          (by simpa using ht)] at ha
        rcases ih db a ha with h | ⟨l, h1, h2, h3, h4⟩
        · exact Or.inl h
        · exact Or.inr ⟨l, h1, ⟨List.mem_cons_of_mem _ h2.1, h2.2.1, h2.2.2⟩, h3, h4⟩

theorem misplacedLoop_frame (env : Env) (now : Nat) (shelf : String)
    (inv : List Inventory) (expected : List String) (items : List (Option String)) :
    ∀ db : DB,
    (∃ hs, (misplacedLoop env now shelf inv expected db items).1.history =
      db.history ++ hs) ∧
    (misplacedLoop env now shelf inv expected db items).1.alerts.filter isStockTypeB =
      db.alerts.filter isStockTypeB := by
  induction items with
  | nil =>
    intro db
    exact ⟨⟨[], by simp [misplacedLoop]⟩, rfl⟩
  | cons x rest ih =>
    intro db
    match x with
    | none =>
      rw [misplacedLoop_cons_none]
      exact ih db
    | some x =>
      by_cases ht : strTruthy x = true
      · by_cases he : is_expected expected (strLower x) = true
        · rw [misplacedLoop_cons_expected env now shelf inv expected db x rest ht he]
          exact ih db
        · have hfst := misplacedLoop_cons_flag_fst env now shelf inv expected db x rest ht
            (by simpa using he)
          obtain ⟨⟨hs1, hh1⟩, hf1⟩ := create_misplacement_frame env now db shelf x inv
          obtain ⟨⟨hs2, hh2⟩, hf2⟩ := ih (create_misplacement_alert env now db shelf x inv).1
          constructor
          · exact ⟨hs1 ++ hs2, by rw [hfst, hh2, hh1, List.append_assoc]⟩
          · rw [hfst, hf2, hf1]
      · rw [misplacedLoop_cons_falsy env now shelf inv expected db x rest
          (by simpa using ht)]
        exact ih db

theorem check_misplacement_frame (env : Env) (now : Nat) (db : DB) (shelf : String)
    (items : List (Option String)) (inv : List Inventory) :
    (∃ hs, (check_misplacement env now db shelf items inv).1.history = db.history ++ hs) ∧
    (check_misplacement env now db shelf items inv).1.alerts.filter isStockTypeB =
      db.alerts.filter isStockTypeB := by
  simp only [check_misplacement]
  by_cases hits : items.isEmpty = true
  · rw [if_pos hits]
    exact ⟨⟨[], by simp⟩, rfl⟩
  · rw [if_neg hits]
    obtain ⟨⟨hs1, hh1⟩, hf1⟩ := misplacedLoop_frame env now shelf inv
      (inv.map (fun i => strLower i.product_name)) items db
    cases hml : missingLoop items inv with
    | error e => exact ⟨⟨hs1, hh1⟩, hf1⟩
    | ok ms =>
      by_cases hmse : ms.isEmpty = true
      · simp only [if_pos hmse]
        exact ⟨⟨hs1, hh1⟩, hf1⟩
      · simp only [if_neg hmse]
        obtain ⟨⟨hs2, hh2⟩, hf2⟩ := create_missing_frame env now
          (misplacedLoop env now shelf inv
            (inv.map (fun i => strLower i.product_name)) db items).1 shelf ms
        have hm1 : (match create_missing_items_alert env now
            (misplacedLoop env now shelf inv
              (inv.map (fun i : Inventory => strLower i.product_name)) db items).1 shelf ms with
          | (db2, some missing_alert) =>
            (db2, (Except.ok ((misplacedLoop env now shelf inv
              (inv.map (fun i : Inventory => strLower i.product_name)) db items).2 ++
              [missing_alert]) : Except String (List Alert)))
          | (db2, none) =>
            (db2, (Except.ok (misplacedLoop env now shelf inv
              (inv.map (fun i : Inventory => strLower i.product_name)) db items).2 :
              Except String (List Alert)))).1 =
            (create_missing_items_alert env now
              (misplacedLoop env now shelf inv
                (inv.map (fun i : Inventory => strLower i.product_name)) db items).1 shelf ms).1 := by
          rcases hpair : create_missing_items_alert env now
            (misplacedLoop env now shelf inv
              (inv.map (fun i => strLower i.product_name)) db items).1 shelf ms
            with ⟨db2, mo⟩
          rw [hpair]
          cases mo <;> rfl
        constructor
        · exact ⟨hs1 ++ hs2, by rw [hm1, hh2, hh1, List.append_assoc]⟩
        · rw [hm1, hf2, hf1]

/-- C7: for a known shelf, a non-empty detected label yields a
misplaced finding iff, case-insensitively, it neither equals, contains,
nor is contained by any expected item name of the shelf; each produced
misplacement record carries `correct_location` equal to the shelf name
of the first inventory row in the whole catalog whose product name
contains the label case-insensitively, or none. -/
theorem c7_misplacement_rule (env : Env) (now : Nat) (db : DB) (shelf : String)
    (labels : List String) (inv : List Inventory)
    (hmiss : ∀ a ∈ db.alerts, missingKey shelf a = true → a.actual_product = none) :
    ∃ as, (check_misplacement env now db shelf (labels.map some) inv).2 = Except.ok as ∧
      (∀ l ∈ labels, l ≠ "" →
        ((∃ a ∈ as, a.actual_product = some l) ↔
          ∀ it ∈ inv,
            ¬ (strContains (strLower it.product_name) (strLower l) = true ∨
               strContains (strLower l) (strLower it.product_name) = true ∨
               strLower l = strLower it.product_name))) ∧
      (∀ a ∈ as, ∀ l, a.actual_product = some l →
        a.correct_location = find_correct_location env l) ∧
      (∀ l : String, find_correct_location env l =
        (env.inventory.find? (fun it =>
          strContains (strLower it.product_name) (strLower l))).map
          (fun it => it.shelf_name)) := by
  have hloc : ∀ l : String, find_correct_location env l =
      (env.inventory.find? (fun it =>
        strContains (strLower it.product_name) (strLower l))).map
        (fun it => it.shelf_name) := by
    intro l
    unfold find_correct_location
    rw [head?_filter_eq_find?]
  have bridge : ∀ l : String, l ∈ labels → l ≠ "" →
      (flaggedMisplaced (inv.map (fun i => strLower i.product_name))
        (labels.map some) l ↔
        ∀ it ∈ inv,
          ¬ (strContains (strLower it.product_name) (strLower l) = true ∨
             strContains (strLower l) (strLower it.product_name) = true ∨
             strLower l = strLower it.product_name)) := by
    intro l hmem hne
    unfold flaggedMisplaced
    constructor
    · rintro ⟨_, _, hexp⟩ it hit hcond
      exact absurd (is_expected_iff inv l |>.mpr ⟨it, hit, hcond⟩) (by simp [hexp])
    · intro hall
      refine ⟨by simp [hmem], (strTruthy_iff l).mpr hne, ?_⟩
      rcases hexp : is_expected (inv.map (fun i => strLower i.product_name)) (strLower l) with _ | _
      · exact hexp
      · obtain ⟨it, hit, hcond⟩ := (is_expected_iff inv l).mp hexp
        exact absurd hcond (hall it hit)
  by_cases hlab : labels = []
  · subst hlab
    refine ⟨[], by simp [check_misplacement], ?_, ?_, hloc⟩
    · intro l hl
      exact absurd hl (List.not_mem_nil l)
    · intro a ha
      exact absurd ha (List.not_mem_nil a)
  · have hspec := misplacedLoop_spec env now shelf inv
      (inv.map (fun i => strLower i.product_name)) (labels.map some) db
    have halerts := misplacedLoop_alerts env now shelf inv
      (inv.map (fun i => strLower i.product_name)) (labels.map some) db
    have hitems : ((labels.map some).isEmpty) = false := by
      cases labels with
      | nil => exact absurd rfl hlab
      | cons x xs => rfl
    simp only [check_misplacement]
    rw [if_neg (by simp [hitems]), missingLoop_map_some]
    by_cases hmse : ((inv.filter (fun it =>
        !(labels.any (fun detected =>
          strContains (strLower detected) (strLower it.product_name) ||
          strContains (strLower it.product_name) (strLower detected))))).map
        (fun it => it.product_name)).isEmpty = true
    · simp only [if_pos hmse]
      refine ⟨_, rfl, ?_, ?_, hloc⟩
      · intro l hmem hne
        rw [(hspec.1 l)]
        exact bridge l hmem hne
      · intro a ha l hal
        obtain ⟨l0, h1, _, h3, _⟩ := hspec.2 a ha
        rw [hal] at h1
        rw [Option.some.inj h1]
        exact h3
    · simp only [if_neg hmse]
      obtain ⟨m, hm, _, _, _, _, hmor⟩ := create_missing_cases env now
        (misplacedLoop env now shelf inv
          (inv.map (fun i => strLower i.product_name)) db (labels.map some)).1
        shelf _ hmse
      have hm2 : (match create_missing_items_alert env now
          (misplacedLoop env now shelf inv
            (inv.map (fun i : Inventory => strLower i.product_name)) db (labels.map some)).1
          shelf ((inv.filter (fun it : Inventory =>
            !(labels.any (fun detected =>
              strContains (strLower detected) (strLower it.product_name) ||
              strContains (strLower it.product_name) (strLower detected))))).map
            (fun it : Inventory => it.product_name)) with
        | (db2, some missing_alert) =>
          (db2, (Except.ok ((misplacedLoop env now shelf inv
            (inv.map (fun i : Inventory => strLower i.product_name)) db (labels.map some)).2 ++
            [missing_alert]) : Except String (List Alert)))
        | (db2, none) =>
          (db2, (Except.ok (misplacedLoop env now shelf inv
            (inv.map (fun i : Inventory => strLower i.product_name)) db (labels.map some)).2 :
            Except String (List Alert)))).2 =
          Except.ok ((misplacedLoop env now shelf inv
            (inv.map (fun i : Inventory => strLower i.product_name)) db (labels.map some)).2 ++
            [m]) := by
        rcases hpair : create_missing_items_alert env now
          (misplacedLoop env now shelf inv
            (inv.map (fun i => strLower i.product_name)) db (labels.map some)).1
          shelf ((inv.filter (fun it =>
            !(labels.any (fun detected =>
              strContains (strLower detected) (strLower it.product_name) ||
              strContains (strLower it.product_name) (strLower detected))))).map
            (fun it => it.product_name)) with ⟨db2, mo⟩
        rw [hpair] at hm
        rw [hpair]
        cases mo with
        | some m2 =>
          have hmm : m2 = m := by simpa using hm
          subst hmm
          rfl
        | none => simp at hm
      have hmfacts : m.actual_product = none ∨
          ∃ l0, m.actual_product = some l0 ∧
            flaggedMisplaced (inv.map (fun i => strLower i.product_name))
              (labels.map some) l0 ∧
            m.correct_location = find_correct_location env l0 := by
        rcases hmor with h | ⟨e, hemem, hekey, hact, hcor⟩
        · exact Or.inl h
        · rcases halerts e hemem with hedb | ⟨l0, he1, he2, he3, _⟩
          · exact Or.inl (by rw [hact]; exact hmiss e hedb hekey)
          · exact Or.inr ⟨l0, by rw [hact]; exact he1, he2, by rw [hcor]; exact he3⟩
      refine ⟨_, hm2, ?_, ?_, hloc⟩
      · intro l hmem hne
        rw [← bridge l hmem hne]
        constructor
        · rintro ⟨a, ha, hal⟩
          rcases List.mem_append.mp ha with hin | hin
          · exact (hspec.1 l).mp ⟨a, hin, hal⟩
          · rw [List.mem_singleton.mp hin] at hal
            rcases hmfacts with h | ⟨l0, h1, h2, _⟩
            · rw [hal] at h
              cases h
            · rw [hal] at h1
              rw [Option.some.inj h1]
              exact h2
        · intro hflag
          obtain ⟨a, ha, hal⟩ := (hspec.1 l).mpr hflag
          exact ⟨a, List.mem_append_left _ ha, hal⟩
      · intro a ha l hal
        rcases List.mem_append.mp ha with hin | hin
        · obtain ⟨l0, h1, _, h3, _⟩ := hspec.2 a hin
          rw [hal] at h1
          rw [Option.some.inj h1]
          exact h3
        · rw [List.mem_singleton.mp hin] at hal
          rcases hmfacts with h | ⟨l0, h1, _, h3⟩
          · rw [hal] at h
            cases h
          · rw [hal] at h1
            rw [List.mem_singleton.mp hin, Option.some.inj h1]
            exact h3

/-- Witness for C7 on shelf A1 expecting "Apple": label "Hammer Set"
is flagged misplaced (with correct location B2 via the catalog), label
"apple" is not. -/
theorem c7_misplacement_rule_witness :
    ∃ as, (check_misplacement envA 9 db0 "A1" (["Hammer Set", "apple"].map some)
        [⟨"A1", "Apple", "Fruit", "R1"⟩]).2 = Except.ok as ∧
      (∃ a ∈ as, a.actual_product = some "Hammer Set") ∧
      ¬ (∃ a ∈ as, a.actual_product = some "apple") ∧
      (∀ a ∈ as, ∀ l, a.actual_product = some l →
        a.correct_location = find_correct_location envA l) := by
  obtain ⟨as, hok, hiff, hloc, _⟩ := c7_misplacement_rule envA 9 db0 "A1"
    ["Hammer Set", "apple"] [⟨"A1", "Apple", "Fruit", "R1"⟩]
    (by intro a ha _; exact absurd ha (List.not_mem_nil a))
  refine ⟨as, hok, ?_, ?_, hloc⟩
  · exact (hiff "Hammer Set" (by simp) (by decide)).mpr (by decide)
  · intro hcon
    have := (hiff "apple" (by simp) (by decide)).mp hcon
    exact absurd this (by decide)

/-- C8: the missing check runs only when the detected list is
non-empty; an expected item is missing iff no detected label matches it
under the bidirectional case-insensitive substring rule; the missing
items of the shelf are aggregated into one alert whose message lists
the first five missing names and appends an "(and N more)" suffix when
more than five are missing. -/
theorem c8_missing_items (env : Env) (now : Nat) (db : DB) (shelf : String)
    (labels : List String) (inv : List Inventory) :
    (check_misplacement env now db shelf [] inv = (db, Except.ok [])) ∧
    (missingLoop (labels.map some) inv =
      Except.ok ((inv.filter (fun it =>
        !(labels.any (fun detected =>
          strContains (strLower detected) (strLower it.product_name) ||
          strContains (strLower it.product_name) (strLower detected))))).map
        (fun it => it.product_name))) ∧
    (∀ ms : List String, missingLoop (labels.map some) inv = Except.ok ms →
      ∀ name : String, name ∈ ms ↔
        ∃ it ∈ inv, it.product_name = name ∧
          ∀ l ∈ labels,
            ¬ (strContains (strLower l) (strLower name) = true ∨
               strContains (strLower name) (strLower l) = true)) ∧
    (∀ ms : List String, 5 < ms.length →
      missingMessage shelf ms =
        "Expected items not detected on shelf " ++ shelf ++ ": " ++
        String.intercalate ", " (ms.take 5) ++
        " (and " ++ toString (ms.length - 5) ++ " more)") ∧
    (∀ ms : List String, ms.length ≤ 5 →
      missingMessage shelf ms =
        "Expected items not detected on shelf " ++ shelf ++ ": " ++
        String.intercalate ", " ms) ∧
    (labels ≠ [] → ∀ ms : List String,
      missingLoop (labels.map some) inv = Except.ok ms → ms ≠ [] →
      ∃ as1 m, (check_misplacement env now db shelf (labels.map some) inv).2 =
          Except.ok (as1 ++ [m]) ∧
        m.message = missingMessage shelf ms ∧
        m.title = missingTitle shelf ∧
        m.alert_type = AlertType.misplaced_item ∧
        (∀ a ∈ as1, a.actual_product ≠ none)) := by
  refine ⟨by simp [check_misplacement], missingLoop_map_some labels inv, ?_, ?_, ?_, ?_⟩
  · intro ms hms name
    rw [missingLoop_map_some labels inv] at hms
    injection hms with hms
    subst hms
    simp only [List.mem_map, List.mem_filter]
    constructor
    · rintro ⟨it, ⟨hit, hnot⟩, rfl⟩
      refine ⟨it, hit, rfl, ?_⟩
      intro l hl hcon
      have : labels.any (fun detected =>
          strContains (strLower detected) (strLower it.product_name) ||
          strContains (strLower it.product_name) (strLower detected)) = true :=
        List.any_eq_true.mpr ⟨l, hl, by
          rcases hcon with h | h <;> simp [h]⟩
      simp [this] at hnot
    · rintro ⟨it, hit, rfl, hall⟩
      refine ⟨it, ⟨hit, ?_⟩, rfl⟩
      simp only [Bool.not_eq_true']
      rw [List.any_eq_false]
      intro l hl
      simpa using hall l hl
  · intro ms h5
    unfold missingMessage
    rw [if_pos h5]
    simp [String.append_assoc]
  · intro ms h5
    unfold missingMessage
    rw [if_neg (by omega), List.take_of_length_le h5]
    simp
  · intro hlab ms hms hmsne
    have hspec := misplacedLoop_spec env now shelf inv
      (inv.map (fun i => strLower i.product_name)) (labels.map some) db
    have hitems : ((labels.map some).isEmpty) = false := by
      cases labels with
      | nil => exact absurd rfl hlab
      | cons x xs => rfl
    have hmse : ¬ ms.isEmpty = true := by
      cases ms with
      | nil => exact absurd rfl hmsne
      | cons x xs => simp
    obtain ⟨m, hm, hmmsg, hmtitle, hmtype, _, _⟩ := create_missing_cases env now
      (misplacedLoop env now shelf inv
        (inv.map (fun i => strLower i.product_name)) db (labels.map some)).1
      shelf ms hmse
    simp only [check_misplacement]
    rw [if_neg (by simp [hitems]), hms]
    simp only [if_neg hmse]
    refine ⟨(misplacedLoop env now shelf inv
      (inv.map (fun i => strLower i.product_name)) db (labels.map some)).2, m, ?_,
      hmmsg, hmtitle, hmtype, ?_⟩
    · rcases hpair : create_missing_items_alert env now
        (misplacedLoop env now shelf inv
          (inv.map (fun i => strLower i.product_name)) db (labels.map some)).1
        shelf ms with ⟨db2, mo⟩
      rw [hpair] at hm
      rw [hpair]
      cases mo with
      | some m2 =>
        have hmm : m2 = m := by simpa using hm
        subst hmm
        rfl
      | none => simp at hm
    · intro a ha hcon
      obtain ⟨l0, h1, _, _, _⟩ := hspec.2 a ha
      rw [hcon] at h1
      cases h1

/-- Witness for C8: shelf expecting seven items, snapshot detecting one
unrelated label, produces one aggregated missing alert whose message
lists five names plus "(and 2 more)". -/
theorem c8_missing_items_witness :
    (∀ ms : List String, ms.length = 7 →
      missingMessage "A1" ms =
        "Expected items not detected on shelf " ++ "A1" ++ ": " ++
        String.intercalate ", " (ms.take 5) ++
        " (and " ++ toString (ms.length - 5) ++ " more)") ∧
    missingMessage "A1" ["P1", "P2", "P3", "P4", "P5", "P6", "P7"] =
      "Expected items not detected on shelf A1: P1, P2, P3, P4, P5 (and 2 more)" ∧
    (∃ as1 m,
      (check_misplacement envB7 11 db0 "A1"
        (["Widget"].map some) invB7).2 = Except.ok (as1 ++ [m]) ∧
      m.message = missingMessage "A1" ((invB7.filter (fun it =>
        !((["Widget"] : List String).any (fun detected =>
          strContains (strLower detected) (strLower it.product_name) ||
          strContains (strLower it.product_name) (strLower detected))))).map
        (fun it => it.product_name)) ∧
      m.title = missingTitle "A1" ∧
      m.alert_type = AlertType.misplaced_item ∧
      (∀ a ∈ as1, a.actual_product ≠ none)) := by
  have h := c8_missing_items envB7 11 db0 "A1" ["Widget"] invB7
  refine ⟨?_, ?_, ?_⟩
  · intro ms h7
    exact h.2.2.2.1 ms (by omega)
  · rw [(c8_missing_items envB7 11 db0 "A1" ["Widget"] invB7).2.2.2.1
      ["P1", "P2", "P3", "P4", "P5", "P6", "P7"] (by norm_num)]
    decide
  · exact h.2.2.2.2.2 (by decide) _ (missingLoop_map_some ["Widget"] invB7) (by decide)

theorem find?_append_none {α : Type} (p : α → Bool) (l1 l2 : List α)
    (h1 : l1.find? p = none) (h2 : l2.find? p = none) :
    (l1 ++ l2).find? p = none := by
  rw [List.find?_eq_none] at h1 h2 ⊢
  intro x hx
  rcases List.mem_append.mp hx with h | h
  · exact h1 x h
  · exact h2 x h

theorem create_misplacement_create (env : Env) (now : Nat) (db : DB)
    (shelf detected : String) (inv : List Inventory)
    (h : db.alerts.find? (misplacedKey shelf detected) = none) :
    create_misplacement_alert env now db shelf detected inv =
      ({ alerts := db.alerts ++ [misplacedAlertRec env shelf detected inv db.nextId now],
         history := db.history ++ [⟨db.nextId, "created", none,
           some ("Misplacement alert created: " ++ detected), now⟩],
         nextId := db.nextId + 1 },
       misplacedAlertRec env shelf detected inv db.nextId now) := by
  unfold create_misplacement_alert
  rw [h]
  simp [addAlert, log_alert_action, misplacedAlertRec]

theorem misplacedLoop_all_create (env : Env) (now : Nat) (shelf : String) :
    ∀ (labels : List String) (db : DB),
    (∀ l ∈ labels, db.alerts.find? (misplacedKey shelf l) = none) →
    labels.Nodup →
    (∀ l ∈ labels, strTruthy l = true) →
    (misplacedLoop env now shelf [] [] db (labels.map some)).1.alerts =
      db.alerts ++ (misplacedLoop env now shelf [] [] db (labels.map some)).2 ∧
    (misplacedLoop env now shelf [] [] db (labels.map some)).1.nextId =
      db.nextId + labels.length ∧
    (∃ hs, (misplacedLoop env now shelf [] [] db (labels.map some)).1.history =
      db.history ++ hs) ∧
    (misplacedLoop env now shelf [] [] db (labels.map some)).2.map
      (fun a => a.actual_product) = labels.map some ∧
    (∀ a ∈ (misplacedLoop env now shelf [] [] db (labels.map some)).2,
      a.alert_type = AlertType.misplaced_item ∧ a.status = AlertStatus.active ∧
      a.priority = AlertPriority.medium ∧ a.expected_product = none ∧
      a.category = none) := by
  intro labels
  induction labels with
  | nil =>
    intro db _ _ _
    exact ⟨by simp [misplacedLoop], by simp [misplacedLoop],
      ⟨[], by simp [misplacedLoop]⟩, by simp [misplacedLoop],
      by intro a ha; simp [misplacedLoop] at ha⟩
  | cons l rest ih =>
    intro db hclean hnodup htruthy
    have ht : strTruthy l = true := htruthy l (List.mem_cons_self _ _)
    have hexp : is_expected [] (strLower l) = false := rfl
    have hfind : db.alerts.find? (misplacedKey shelf l) = none :=
      hclean l (List.mem_cons_self _ _)
    have hcreate := create_misplacement_create env now db shelf l [] hfind
    rw [List.map_cons, misplacedLoop_cons_flag env now shelf [] [] db l
      (rest.map some) ht hexp, hcreate]
    have hnodup2 : rest.Nodup := (List.nodup_cons.mp hnodup).2
    have hlnotin : l ∉ rest := (List.nodup_cons.mp hnodup).1
    have hclean2 : ∀ l2 ∈ rest,
        ({ alerts := db.alerts ++ [misplacedAlertRec env shelf l [] db.nextId now],
           history := db.history ++ [⟨db.nextId, "created", none,
             some ("Misplacement alert created: " ++ l), now⟩],
           nextId := db.nextId + 1 } : DB).alerts.find? (misplacedKey shelf l2) = none := by
      intro l2 hl2
      apply find?_append_none _ _ _ (hclean l2 (List.mem_cons_of_mem _ hl2))
      have hne : l ≠ l2 := fun hcon => hlnotin (hcon ▸ hl2)
      rw [List.find?_eq_none]
      intro x hx
      rw [List.mem_singleton.mp hx]
      simp [misplacedKey, misplacedAlertRec, hne]
    obtain ⟨ih1, ih2, ⟨hs, ih3⟩, ih4, ih5⟩ := ih _ hclean2 hnodup2
      (fun l2 hl2 => htruthy l2 (List.mem_cons_of_mem _ hl2))
    refine ⟨?_, ?_, ?_, ?_, ?_⟩
    · show (misplacedLoop env now shelf [] [] _ (rest.map some)).1.alerts = _
      rw [ih1]
      simp
    · show (misplacedLoop env now shelf [] [] _ (rest.map some)).1.nextId = _
      rw [ih2]
      simp only [List.length_cons]
      omega
    · refine ⟨⟨db.nextId, "created", none,
        some ("Misplacement alert created: " ++ l), now⟩ :: hs, ?_⟩
      show (misplacedLoop env now shelf [] [] _ (rest.map some)).1.history = _
      rw [ih3]
      simp
    · show (misplacedAlertRec env shelf l [] db.nextId now ::
        (misplacedLoop env now shelf [] [] _ (rest.map some)).2).map
          (fun a => a.actual_product) = _
      rw [List.map_cons, ih4]
      simp [misplacedAlertRec]
    · intro a ha
      rcases List.mem_cons.mp ha with heq | hmem
      · rw [heq]
        refine ⟨rfl, rfl, rfl, ?_, ?_⟩ <;> simp [misplacedAlertRec]
      · exact ih5 a hmem

/-- C10: for a known shelf whose inventory catalog is empty and a
non-empty detected list, every non-empty detected label is flagged
misplaced — one MISPLACED_ITEM alert per label, with
`expected_product` and `category` none — and no missing-items alert is
created, since the expected set is empty. -/
theorem c10_empty_catalog (env : Env) (now : Nat) (db : DB) (shelf : String)
    (labels : List String)
    (hne : labels ≠ []) (hnodup : labels.Nodup)
    (htruthy : ∀ l ∈ labels, strTruthy l = true)
    (hclean : ∀ l ∈ labels, db.alerts.find? (misplacedKey shelf l) = none) :
    ∃ as, (check_misplacement env now db shelf (labels.map some) []).2 = Except.ok as ∧
      (check_misplacement env now db shelf (labels.map some) []).1.alerts =
        db.alerts ++ as ∧
      (check_misplacement env now db shelf (labels.map some) []).1.nextId =
        db.nextId + labels.length ∧
      as.map (fun a => a.actual_product) = labels.map some ∧
      (∀ a ∈ as, a.alert_type = AlertType.misplaced_item ∧
        a.status = AlertStatus.active ∧ a.priority = AlertPriority.medium ∧
        a.expected_product = none ∧ a.category = none) ∧
      missingLoop (labels.map some) ([] : List Inventory) = Except.ok [] := by
  have hitems : ((labels.map some).isEmpty) = false := by
    cases labels with
    | nil => exact absurd rfl hne
    | cons x xs => rfl
  obtain ⟨h1, h2, _, h4, h5⟩ :=
    misplacedLoop_all_create env now shelf labels db hclean hnodup htruthy
  simp only [check_misplacement]
  rw [if_neg (by simp [hitems])]
  simp only [List.map_nil]
  rw [show missingLoop (labels.map some) ([] : List Inventory) = Except.ok [] from rfl]
  simp only [List.isEmpty_nil, if_true]
  exact ⟨(misplacedLoop env now shelf [] [] db (labels.map some)).2,
    rfl, h1, h2, h4, h5, trivial⟩

/-- Witness for C10: two labels on a shelf with an empty catalog
produce exactly two misplacement alerts and nothing else. -/
theorem c10_empty_catalog_witness :
    ∃ as, (check_misplacement envA 13 db0 "A1" (["Drill", "Saw"].map some) []).2 =
        Except.ok as ∧
      (check_misplacement envA 13 db0 "A1" (["Drill", "Saw"].map some) []).1.alerts =
        db0.alerts ++ as ∧
      (check_misplacement envA 13 db0 "A1" (["Drill", "Saw"].map some) []).1.nextId =
        db0.nextId + (["Drill", "Saw"] : List String).length ∧
      as.map (fun a => a.actual_product) = (["Drill", "Saw"] : List String).map some ∧
      (∀ a ∈ as, a.alert_type = AlertType.misplaced_item ∧
        a.status = AlertStatus.active ∧ a.priority = AlertPriority.medium ∧
        a.expected_product = none ∧ a.category = none) ∧
      missingLoop ((["Drill", "Saw"] : List String).map some) ([] : List Inventory) =
        Except.ok [] :=
  c10_empty_catalog envA 13 db0 "A1" ["Drill", "Saw"] (by decide) (by decide)
    (by decide) (by intro l _; rfl)

theorem classifyStock_none (fill : ℚ) (h : 75 ≤ fill) : classifyStock fill = none := by
  have hc : STOCK_THRESHOLDS.critical = 10 := rfl
  have hh : STOCK_THRESHOLDS.high = 25 := rfl
  have hm : STOCK_THRESHOLDS.medium = 50 := rfl
  have hl : STOCK_THRESHOLDS.low = 75 := rfl
  unfold classifyStock
  rw [hc, hh, hm, hl]
  rw [if_neg (by linarith), if_neg (by linarith), if_neg (by linarith),
    if_neg (by linarith)]

theorem countP_filter_sub {α : Type} (p q : α → Bool) (l : List α)
    (h : ∀ a, p a = true → q a = true) :
    l.countP p = (l.filter q).countP p := by
  induction l with
  | nil => rfl
  | cons b rest ih =>
    by_cases hq : q b = true
    · rw [List.filter_cons_of_pos (by simp [hq]), List.countP_cons, List.countP_cons, ih]
    · have hp : p b = false := by
        rcases hpb : p b with _ | _
        · rfl
        · exact absurd (h b hpb) hq
      rw [List.filter_cons_of_neg (by simp [hq]), List.countP_cons, hp, ih]
      simp

theorem key_imp_stockType {s : String} {a : Alert}
    (h : isActiveShelfStockAlert s a = true) : isStockTypeB a = true := by
  simp only [isActiveShelfStockAlert, Bool.and_eq_true] at h
  exact h.2

theorem resolvedVersion_key_false (s2 : String) (now : Nat) (a : Alert) :
    isActiveShelfStockAlert s2
      { a with
        status := AlertStatus.resolved, resolved_at := some now,
        updated_at := now } = false := by
  simp [isActiveShelfStockAlert]

theorem resolve_existing_countP (env : Env) (now : Nat) (db : DB) (s s2 : String) :
    (resolve_existing_stock_alerts env now db s).alerts.countP
      (isActiveShelfStockAlert s) = 0 := by
  unfold resolve_existing_stock_alerts
  rw [List.countP_eq_zero]
  intro a ha
  rw [List.mem_map] at ha
  obtain ⟨b, hb, rfl⟩ := ha
  by_cases hkey : isActiveShelfStockAlert s b = true
  · rw [if_pos hkey]
    simp [resolvedVersion_key_false]
  · rw [if_neg hkey]
    simp only [Bool.not_eq_true]
    rcases h : isActiveShelfStockAlert s b with _ | _
    · rfl
    · exact absurd h hkey

theorem resolve_existing_mem (env : Env) (now : Nat) (db : DB) (s : String)
    (a : Alert) (ha : a ∈ db.alerts) (hkey : isActiveShelfStockAlert s a = true) :
    { a with
      status := AlertStatus.resolved, resolved_at := some now,
      updated_at := now } ∈ (resolve_existing_stock_alerts env now db s).alerts ∧
    (⟨a.id, "auto_resolved", none, some "Stock level returned to normal", now⟩ :
      AlertHistory) ∈ (resolve_existing_stock_alerts env now db s).history := by
  unfold resolve_existing_stock_alerts
  constructor
  · refine List.mem_map.mpr ⟨a, ha, ?_⟩
    simp [hkey]
  · apply List.mem_append_right
    exact List.mem_map_of_mem _ (List.mem_filter.mpr ⟨ha, hkey⟩)

theorem check_stock_none (env : Env) (now : Nat) (db : DB) (s : String)
    (fill empty : ℚ) (inv : List Inventory) (h : classifyStock fill = none) :
    check_stock_levels env now db s fill empty inv =
      (resolve_existing_stock_alerts env now db s, none) := by
  unfold check_stock_levels
  rw [h]

theorem process_json_fst (env : Env) (now : Nat) (db : DB) (input : SnapshotInput)
    (hsh : strTruthy input.shelf_number = true) :
    (process_json_data env now db input).1 =
      (process_shelf_data env now db input.shelf_number input.empty_percentage
        input.items_detected).1 := by
  unfold process_json_data
  rw [if_neg (by rw [hsh]; decide)]
  rcases hp : process_shelf_data env now db input.shelf_number input.empty_percentage
    input.items_detected with ⟨db1, r⟩
  cases r <;> rfl

theorem process_shelf_fst_known (env : Env) (now : Nat) (db : DB) (s : String)
    (empty : ℚ) (items : List (Option String))
    (hknown : env.shelves.contains s = true) :
    (process_shelf_data env now db s empty items).1 =
      (check_misplacement env now
        (check_stock_levels env now db s (100 - empty) empty
          (env.inventory.filter (fun i => i.shelf_name == s))).1
        s items (env.inventory.filter (fun i => i.shelf_name == s))).1 := by
  simp only [process_shelf_data]
  rw [if_neg (by rw [hknown]; decide)]
  rcases hc : check_misplacement env now
      (check_stock_levels env now db s (100 - empty) empty
        (env.inventory.filter (fun i => i.shelf_name == s))).1
      s items (env.inventory.filter (fun i => i.shelf_name == s)) with ⟨db2, r⟩
  cases r <;> rfl

/-- C5: when the classifier yields no tier (fill at or above the low
cut point), ingestion auto-resolves every ACTIVE shelf-level stock-tier
alert of the shelf — status RESOLVED with `resolved_at` set — appends
an `auto_resolved` history row for each, and creates no new stock
alert: afterwards no ACTIVE stock alert exists for the shelf and every
stock-tier row of the final state is an original row or its resolved
version. -/
theorem c5_auto_resolve (env : Env) (now : Nat) (db : DB) (input : SnapshotInput)
    (hknown : env.shelves.contains input.shelf_number = true)
    (hsh : strTruthy input.shelf_number = true)
    (hfill : 75 ≤ 100 - input.empty_percentage) :
    ((process_json_data env now db input).1.alerts.countP
      (isActiveShelfStockAlert input.shelf_number) = 0) ∧
    (∀ a ∈ db.alerts, isActiveShelfStockAlert input.shelf_number a = true →
      { a with
        status := AlertStatus.resolved, resolved_at := some now,
        updated_at := now } ∈ (process_json_data env now db input).1.alerts ∧
      (⟨a.id, "auto_resolved", none, some "Stock level returned to normal", now⟩ :
        AlertHistory) ∈ (process_json_data env now db input).1.history) ∧
    (∀ a ∈ (process_json_data env now db input).1.alerts, isStockTypeB a = true →
      a ∈ db.alerts.map (fun x =>
        if isActiveShelfStockAlert input.shelf_number x then
          { x with
            status := AlertStatus.resolved, resolved_at := some now,
            updated_at := now }
        else x)) := by
  have hclass : classifyStock (100 - input.empty_percentage) = none :=
    classifyStock_none _ hfill
  have hstep : (process_json_data env now db input).1 =
      (check_misplacement env now
        (resolve_existing_stock_alerts env now db input.shelf_number)
        input.shelf_number input.items_detected
        (env.inventory.filter (fun i => i.shelf_name == input.shelf_number))).1 := by
    rw [process_json_fst env now db input hsh,
      process_shelf_fst_known env now db input.shelf_number input.empty_percentage
        input.items_detected hknown,
      check_stock_none env now db input.shelf_number (100 - input.empty_percentage)
        input.empty_percentage _ hclass]
  obtain ⟨⟨hs2, hh2⟩, hf2⟩ := check_misplacement_frame env now
    (resolve_existing_stock_alerts env now db input.shelf_number) input.shelf_number
    input.items_detected
    (env.inventory.filter (fun i => i.shelf_name == input.shelf_number))
  rw [hstep]
  refine ⟨?_, ?_, ?_⟩
  · rw [countP_filter_sub (isActiveShelfStockAlert input.shelf_number) isStockTypeB _
      (fun a => key_imp_stockType), hf2,
      ← countP_filter_sub (isActiveShelfStockAlert input.shelf_number) isStockTypeB _
      (fun a => key_imp_stockType)]
    exact resolve_existing_countP env now db input.shelf_number input.shelf_number
  · intro a ha hkey
    obtain ⟨hmem, hhist⟩ := resolve_existing_mem env now db input.shelf_number a ha hkey
    constructor
    · have htype : isStockTypeB { a with
          status := AlertStatus.resolved,
          resolved_at := some now, updated_at := now } = true := by
        have := key_imp_stockType hkey
        simpa [isStockTypeB] using this
      have hin : { a with
          status := AlertStatus.resolved, resolved_at := some now,
          updated_at := now } ∈
          (resolve_existing_stock_alerts env now db input.shelf_number).alerts.filter
            isStockTypeB := List.mem_filter.mpr ⟨hmem, htype⟩
      rw [← hf2] at hin
      exact (List.mem_filter.mp hin).1
    · rw [hh2]
      exact List.mem_append_left _ hhist
  · intro a ha htype
    have hin : a ∈ (check_misplacement env now
        (resolve_existing_stock_alerts env now db input.shelf_number)
        input.shelf_number input.items_detected
        (env.inventory.filter (fun i => i.shelf_name == input.shelf_number))).1.alerts.filter
        isStockTypeB := List.mem_filter.mpr ⟨ha, htype⟩
    rw [hf2] at hin
    exact (List.mem_filter.mp hin).1

/-- Witness for C5: a shelf with an ACTIVE LOW_STOCK alert ingested at
fill 100 ends with that alert RESOLVED and no active stock alert. -/
theorem c5_auto_resolve_witness :
    ((process_json_data envA 21 dbW ⟨"A1", 0, []⟩).1.alerts.countP
      (isActiveShelfStockAlert "A1") = 0) ∧
    ({ alertW with
      status := AlertStatus.resolved, resolved_at := some 21,
      updated_at := 21 } ∈ (process_json_data envA 21 dbW ⟨"A1", 0, []⟩).1.alerts ∧
    (⟨alertW.id, "auto_resolved", none, some "Stock level returned to normal", 21⟩ :
      AlertHistory) ∈ (process_json_data envA 21 dbW ⟨"A1", 0, []⟩).1.history) := by
  have h := c5_auto_resolve envA 21 dbW ⟨"A1", 0, []⟩ (by decide) (by decide)
    (by norm_num)
  exact ⟨h.1, h.2.1 alertW (by decide) (by decide)⟩

theorem classify_stockType (fill : ℚ) (t : AlertType) (p : AlertPriority)
    (h : classifyStock fill = some (t, p)) : stockTypes.contains t = true := by
  unfold classifyStock at h
  split_ifs at h
  · simp only [Option.some.injEq, Prod.mk.injEq] at h
    rw [← h.1]
    decide
  · simp only [Option.some.injEq, Prod.mk.injEq] at h
    rw [← h.1]
    decide
  · simp only [Option.some.injEq, Prod.mk.injEq] at h
    rw [← h.1]
    decide
  · simp only [Option.some.injEq, Prod.mk.injEq] at h
    rw [← h.1]
    decide
  · simp only [Option.some.injEq, Prod.mk.injEq] at h
    rw [← h.1]
    decide

theorem check_stock_create (env : Env) (now : Nat) (db : DB) (s : String)
    (fill empty : ℚ) (inv : List Inventory) (t : AlertType) (p : AlertPriority)
    (hc : classifyStock fill = some (t, p))
    (hfind : db.alerts.find? (isActiveShelfStockAlert s) = none) :
    check_stock_levels env now db s fill empty inv =
      ({ alerts := db.alerts ++ [stockAlertRec env s t p fill empty inv db.nextId now],
         history := db.history ++ [⟨db.nextId, "created", none,
           some ("Stock alert created for " ++ fmt1 fill ++ "% fill level"), now⟩],
         nextId := db.nextId + 1 },
       some (stockAlertRec env s t p fill empty inv db.nextId now)) := by
  unfold check_stock_levels
  rw [hc, hfind]
  simp [addAlert, log_alert_action, stockAlertRec]

theorem check_stock_update (env : Env) (now : Nat) (db : DB) (s : String)
    (fill empty : ℚ) (inv : List Inventory) (t : AlertType) (p : AlertPriority)
    (existing : Alert) (hc : classifyStock fill = some (t, p))
    (hfind : db.alerts.find? (isActiveShelfStockAlert s) = some existing) :
    check_stock_levels env now db s fill empty inv =
      ({ alerts := modifyFirst (isActiveShelfStockAlert s)
           (fun _ => stockUpdate s t p fill empty inv now existing) db.alerts,
         history := db.history ++ [⟨existing.id, "updated", none,
           some ("Stock level updated to " ++ fmt1 fill ++ "%"), now⟩],
         nextId := db.nextId },
       some (stockUpdate s t p fill empty inv now existing)) := by
  unfold check_stock_levels
  rw [hc, hfind]
  simp [log_alert_action]

theorem stockAlertRec_key (env : Env) (s : String) (t : AlertType) (p : AlertPriority)
    (fill empty : ℚ) (inv : List Inventory) (i now : Nat)
    (ht : stockTypes.contains t = true) :
    isActiveShelfStockAlert s (stockAlertRec env s t p fill empty inv i now) = true := by
  have ht2 : t ∈ stockTypes := by simpa using ht
  simp [isActiveShelfStockAlert, stockAlertRec, ht2]

theorem stockUpdate_key (s : String) (t : AlertType) (p : AlertPriority)
    (fill empty : ℚ) (inv : List Inventory) (now : Nat) (e : Alert)
    (ht : stockTypes.contains t = true)
    (he : isActiveShelfStockAlert s e = true) :
    isActiveShelfStockAlert s (stockUpdate s t p fill empty inv now e) = true := by
  have ht2 : t ∈ stockTypes := by simpa using ht
  simp only [isActiveShelfStockAlert, Bool.and_eq_true] at he
  simp [isActiveShelfStockAlert, stockUpdate, ht2, he.1.1.1, he.1.1.2, he.1.2]

theorem stockUpdate_twice (s : String) (t : AlertType) (p : AlertPriority)
    (fill empty : ℚ) (inv : List Inventory) (now1 now2 : Nat) (e : Alert) :
    stockUpdate s t p fill empty inv now2 (stockUpdate s t p fill empty inv now1 e) =
      { stockUpdate s t p fill empty inv now1 e with updated_at := now2 } := by
  simp [stockUpdate]

theorem stockUpdate_of_rec (env : Env) (s : String) (t : AlertType) (p : AlertPriority)
    (fill empty : ℚ) (inv : List Inventory) (i now1 now2 : Nat) :
    stockUpdate s t p fill empty inv now2 (stockAlertRec env s t p fill empty inv i now1) =
      { stockAlertRec env s t p fill empty inv i now1 with updated_at := now2 } := by
  simp [stockUpdate, stockAlertRec]

/-- C4: running the stock upsert twice with the identical snapshot
(classifier output not none) from a state with at most one ACTIVE
shelf-level stock alert yields exactly one ACTIVE stock alert with the
same id: the second run finds the alert written by the first run and
mutates it in place, changing only `updated_at` and appending one
`updated` history row — the rest of the state is untouched and no new
alert id is allocated. -/
theorem c4_stock_idempotence (env : Env) (db0 : DB) (shelf : String)
    (fill empty : ℚ) (now1 now2 : Nat) (inv : List Inventory)
    (hinv : db0.alerts.countP (isActiveShelfStockAlert shelf) ≤ 1)
    (t : AlertType) (p : AlertPriority)
    (hc : classifyStock fill = some (t, p)) :
    ∃ a1 l1 l2,
      (check_stock_levels env now1 db0 shelf fill empty inv).2 = some a1 ∧
      isActiveShelfStockAlert shelf a1 = true ∧
      (check_stock_levels env now1 db0 shelf fill empty inv).1.alerts =
        l1 ++ a1 :: l2 ∧
      (∀ x ∈ l1, isActiveShelfStockAlert shelf x = false) ∧
      (∀ x ∈ l2, isActiveShelfStockAlert shelf x = false) ∧
      (check_stock_levels env now2
        (check_stock_levels env now1 db0 shelf fill empty inv).1
        shelf fill empty inv).2 = some { a1 with updated_at := now2 } ∧
      (check_stock_levels env now2
        (check_stock_levels env now1 db0 shelf fill empty inv).1
        shelf fill empty inv).1.alerts =
        l1 ++ { a1 with updated_at := now2 } :: l2 ∧
      (check_stock_levels env now2
        (check_stock_levels env now1 db0 shelf fill empty inv).1
        shelf fill empty inv).1.nextId =
        (check_stock_levels env now1 db0 shelf fill empty inv).1.nextId ∧
      (check_stock_levels env now2
        (check_stock_levels env now1 db0 shelf fill empty inv).1
        shelf fill empty inv).1.history =
        (check_stock_levels env now1 db0 shelf fill empty inv).1.history ++
          [⟨a1.id, "updated", none,
            some ("Stock level updated to " ++ fmt1 fill ++ "%"), now2⟩] ∧
      (check_stock_levels env now2
        (check_stock_levels env now1 db0 shelf fill empty inv).1
        shelf fill empty inv).1.alerts.countP
        (isActiveShelfStockAlert shelf) = 1 := by
  have hst := classify_stockType fill t p hc
  cases hfind : db0.alerts.find? (isActiveShelfStockAlert shelf) with
  | none =>
    have hr1 := check_stock_create env now1 db0 shelf fill empty inv t p hc hfind
    have hl1none : ∀ x ∈ db0.alerts, isActiveShelfStockAlert shelf x = false := by
      intro x hx
      simpa using List.find?_eq_none.mp hfind x hx
    have hkey1 : isActiveShelfStockAlert shelf
        (stockAlertRec env shelf t p fill empty inv db0.nextId now1) = true :=
      stockAlertRec_key env shelf t p fill empty inv db0.nextId now1 hst
    have hfind2 : (check_stock_levels env now1 db0 shelf fill empty inv).1.alerts.find?
        (isActiveShelfStockAlert shelf) =
        some (stockAlertRec env shelf t p fill empty inv db0.nextId now1) := by
      rw [hr1]
      exact find?_split _ _ _ _ hl1none hkey1
    have hr2 := check_stock_update env now2
      (check_stock_levels env now1 db0 shelf fill empty inv).1 shelf fill empty inv
      t p _ hc hfind2
    refine ⟨stockAlertRec env shelf t p fill empty inv db0.nextId now1,
      db0.alerts, [], by rw [hr1], hkey1, by rw [hr1], hl1none,
      ?_, ?_, ?_, ?_, ?_, ?_⟩
    · intro x hx
      exact absurd hx (List.not_mem_nil x)
    · rw [hr2, stockUpdate_of_rec]
    · rw [hr2, stockUpdate_of_rec]
      simp only []
      rw [hr1]
      simp only []
      rw [modifyFirst_split _ _ _ _ _ hl1none hkey1]
    · rw [hr2]
    · rw [hr2]
    · rw [hr2]
      simp only []
      rw [hr1]
      simp only []
      rw [modifyFirst_split _ _ _ _ _ hl1none hkey1, List.countP_append,
        List.countP_cons]
      rw [List.countP_eq_zero.mpr (by
        intro x hx
        simp [hl1none x hx])]
      rw [stockUpdate_of_rec]
      have : isActiveShelfStockAlert shelf
          { stockAlertRec env shelf t p fill empty inv db0.nextId now1 with
            updated_at := now2 } = true := by
        simpa [isActiveShelfStockAlert, stockAlertRec] using hkey1
      simp [this]
  | some e0 =>
    obtain ⟨l1, l2, hl, hl1none, hkey0⟩ := find?_decomp hfind
    have hr1 := check_stock_update env now1 db0 shelf fill empty inv t p e0 hc hfind
    have hkey1 : isActiveShelfStockAlert shelf
        (stockUpdate shelf t p fill empty inv now1 e0) = true :=
      stockUpdate_key shelf t p fill empty inv now1 e0 hst hkey0
    have hl2none : ∀ x ∈ l2, isActiveShelfStockAlert shelf x = false := by
      intro x hx
      have hcount : db0.alerts.countP (isActiveShelfStockAlert shelf) =
          l1.countP (isActiveShelfStockAlert shelf) + 1 +
          l2.countP (isActiveShelfStockAlert shelf) := by
        have hone : (if true = true then (1 : Nat) else 0) = 1 := rfl
        rw [hl, List.countP_append, List.countP_cons, hkey0, hone]
        omega
      have hzero1 : l1.countP (isActiveShelfStockAlert shelf) = 0 :=
        List.countP_eq_zero.mpr (by intro y hy; simp [hl1none y hy])
      have hzero2 : l2.countP (isActiveShelfStockAlert shelf) = 0 := by omega
      have := List.countP_eq_zero.mp hzero2 x hx
      rcases hxk : isActiveShelfStockAlert shelf x with _ | _
      · rfl
      · exact absurd hxk this
    have halerts1 : (check_stock_levels env now1 db0 shelf fill empty inv).1.alerts =
        l1 ++ stockUpdate shelf t p fill empty inv now1 e0 :: l2 := by
      rw [hr1]
      simp only []
      rw [hl, modifyFirst_split _ _ _ _ _ hl1none hkey0]
    have hfind2 : (check_stock_levels env now1 db0 shelf fill empty inv).1.alerts.find?
        (isActiveShelfStockAlert shelf) =
        some (stockUpdate shelf t p fill empty inv now1 e0) := by
      rw [halerts1]
      exact find?_split _ _ _ _ hl1none hkey1
    have hr2 := check_stock_update env now2
      (check_stock_levels env now1 db0 shelf fill empty inv).1 shelf fill empty inv
      t p _ hc hfind2
    refine ⟨stockUpdate shelf t p fill empty inv now1 e0, l1, l2,
      by rw [hr1], hkey1, halerts1, hl1none, hl2none, ?_, ?_, ?_, ?_, ?_⟩
    · rw [hr2, stockUpdate_twice]
    · rw [hr2]
      simp only []
      rw [halerts1, modifyFirst_split _ _ _ _ _ hl1none hkey1, stockUpdate_twice]
    · rw [hr2]
    · rw [hr2]
    · rw [hr2]
      simp only []
      rw [halerts1, modifyFirst_split _ _ _ _ _ hl1none hkey1, List.countP_append,
        List.countP_cons]
      rw [List.countP_eq_zero.mpr (by
        intro x hx
        simp [hl1none x hx])]
      rw [List.countP_eq_zero.mpr (by
        intro x hx
        simp [hl2none x hx])]
      rw [stockUpdate_twice]
      have : isActiveShelfStockAlert shelf
          { stockUpdate shelf t p fill empty inv now1 e0 with
            updated_at := now2 } = true := by
        simpa [isActiveShelfStockAlert, stockUpdate] using hkey1
      simp [this]

/-- Witness for C4 on a shelf that already carries one ACTIVE
LOW_STOCK alert, re-ingested twice at fill 5. -/
theorem c4_stock_idempotence_witness :
    dbW.alerts.countP (isActiveShelfStockAlert "A1") ≤ 1 ∧
    classifyStock 5 = some (AlertType.critical_stock, AlertPriority.critical) ∧
    ∃ a1 l1 l2,
      (check_stock_levels envA 31 dbW "A1" 5 95 []).2 = some a1 ∧
      isActiveShelfStockAlert "A1" a1 = true ∧
      (check_stock_levels envA 31 dbW "A1" 5 95 []).1.alerts = l1 ++ a1 :: l2 ∧
      (∀ x ∈ l1, isActiveShelfStockAlert "A1" x = false) ∧
      (∀ x ∈ l2, isActiveShelfStockAlert "A1" x = false) ∧
      (check_stock_levels envA 32 (check_stock_levels envA 31 dbW "A1" 5 95 []).1
        "A1" 5 95 []).2 = some { a1 with updated_at := 32 } ∧
      (check_stock_levels envA 32 (check_stock_levels envA 31 dbW "A1" 5 95 []).1
        "A1" 5 95 []).1.alerts = l1 ++ { a1 with updated_at := 32 } :: l2 ∧
      (check_stock_levels envA 32 (check_stock_levels envA 31 dbW "A1" 5 95 []).1
        "A1" 5 95 []).1.nextId =
        (check_stock_levels envA 31 dbW "A1" 5 95 []).1.nextId ∧
      (check_stock_levels envA 32 (check_stock_levels envA 31 dbW "A1" 5 95 []).1
        "A1" 5 95 []).1.history =
        (check_stock_levels envA 31 dbW "A1" 5 95 []).1.history ++
          [⟨a1.id, "updated", none,
            some ("Stock level updated to " ++ fmt1 5 ++ "%"), 32⟩] ∧
      (check_stock_levels envA 32 (check_stock_levels envA 31 dbW "A1" 5 95 []).1
        "A1" 5 95 []).1.alerts.countP (isActiveShelfStockAlert "A1") = 1 := by
  have hc : classifyStock 5 = some (AlertType.critical_stock, AlertPriority.critical) := by
    have h10 : STOCK_THRESHOLDS.critical = 10 := rfl
    unfold classifyStock
    rw [h10, if_pos (by norm_num : (5 : ℚ) < 10), if_pos (by norm_num : (5 : ℚ) > 0)]
  exact ⟨by decide, hc,
    c4_stock_idempotence envA dbW "A1" 5 95 31 32 [] (by decide)
      AlertType.critical_stock AlertPriority.critical hc⟩

/-- Witness for the amended C2 theorem at the concrete failing
snapshot: the partially-written session is committed with
`success: true`. -/
theorem c2_error_handling_amended_witness :
    process_json_data envA 100 db0 cexInput =
      ((process_shelf_data envA 100 db0 "A1" 95 [none]).1,
       { success := true, alerts_created := 0, alerts := [], error := none,
         errors := [errMsg "A1" attrMsg] }) :=
  (c2_error_handling_amended envA 100 db0 cexInput).1 attrMsg
    (process_shelf_data envA 100 db0 "A1" 95 [none]).1 (by decide)
    (by rw [← cex_shelf_error]; rfl)

theorem countP_map_le {α : Type} (p : α → Bool) (f : α → α) (l : List α)
    (h : ∀ a ∈ l, p (f a) = true → p a = true) :
    (l.map f).countP p ≤ l.countP p := by
  induction l with
  | nil => simp
  | cons b rest ih =>
    have h2 := ih (fun a ha hpa => h a (List.mem_cons_of_mem b ha) hpa)
    rw [List.map_cons, List.countP_cons, List.countP_cons]
    have e0 : (if false = true then (1 : Nat) else 0) = 0 := rfl
    have e1 : (if true = true then (1 : Nat) else 0) = 1 := rfl
    rcases hfb : p (f b) with _ | _
    · rw [e0]
      rcases hpb : p b with _ | _
      · rw [e0]
        omega
      · rw [e1]
        omega
    · have hpb := h b (List.mem_cons_self b rest) hfb
      rw [e1, hpb, e1]
      omega

theorem resolve_existing_countP_le (env : Env) (now : Nat) (db : DB) (s s2 : String) :
    (resolve_existing_stock_alerts env now db s).alerts.countP
      (isActiveShelfStockAlert s2) ≤
      db.alerts.countP (isActiveShelfStockAlert s2) := by
  unfold resolve_existing_stock_alerts
  simp only []
  refine countP_map_le _ _ _ ?_
  intro a ha hpa
  simp only [] at hpa
  by_cases hkey : isActiveShelfStockAlert s a = true
  · rw [if_pos hkey, resolvedVersion_key_false] at hpa
    exact Bool.noConfusion hpa
  · rw [if_neg hkey] at hpa
    exact hpa

theorem stockUpdate_key_eq (s s2 : String) (t : AlertType) (p : AlertPriority)
    (fill empty : ℚ) (inv : List Inventory) (now : Nat) (e : Alert)
    (ht : stockTypes.contains t = true)
    (he : isActiveShelfStockAlert s e = true) :
    isActiveShelfStockAlert s2 (stockUpdate s t p fill empty inv now e) =
      isActiveShelfStockAlert s2 e := by
  have ht2 : t ∈ stockTypes := by simpa using ht
  simp only [isActiveShelfStockAlert, Bool.and_eq_true] at he
  have he2 : e.alert_type ∈ stockTypes := by simpa using he.2
  simp [isActiveShelfStockAlert, stockUpdate, ht2, he.1.1.2, he.1.2, he2]

theorem stockAlertRec_key_ne (env : Env) (s s2 : String) (t : AlertType)
    (p : AlertPriority) (fill empty : ℚ) (inv : List Inventory) (i now : Nat)
    (hne : s ≠ s2) :
    isActiveShelfStockAlert s2 (stockAlertRec env s t p fill empty inv i now) = false := by
  simp [isActiveShelfStockAlert, stockAlertRec, hne]

theorem check_stock_countP_le (env : Env) (now : Nat) (db : DB) (shelf : String)
    (fill empty : ℚ) (inv : List Inventory) (s2 : String)
    (h : db.alerts.countP (isActiveShelfStockAlert s2) ≤ 1) :
    (check_stock_levels env now db shelf fill empty inv).1.alerts.countP
      (isActiveShelfStockAlert s2) ≤ 1 := by
  cases hc : classifyStock fill with
  | none =>
    unfold check_stock_levels
    rw [hc]
    exact le_trans (resolve_existing_countP_le env now db shelf s2) h
  | some tp =>
    obtain ⟨t, p⟩ := tp
    have hst := classify_stockType fill t p hc
    cases hfind : db.alerts.find? (isActiveShelfStockAlert shelf) with
    | some e0 =>
      have hr := check_stock_update env now db shelf fill empty inv t p e0 hc hfind
      obtain ⟨l1, l2, hl, hl1none, hkey0⟩ := find?_decomp hfind
      rw [hr]
      simp only []
      rw [hl, modifyFirst_split _ _ _ _ _ hl1none hkey0]
      rw [List.countP_append, List.countP_cons,
        stockUpdate_key_eq shelf s2 t p fill empty inv now e0 hst hkey0]
      rw [hl, List.countP_append, List.countP_cons] at h
      exact h
    | none =>
      have hr := check_stock_create env now db shelf fill empty inv t p hc hfind
      rw [hr]
      simp only []
      rw [List.countP_append, List.countP_cons, List.countP_nil]
      by_cases hs : shelf = s2
      · subst hs
        have hz : db.alerts.countP (isActiveShelfStockAlert shelf) = 0 := by
          rw [List.countP_eq_zero]
          exact List.find?_eq_none.mp hfind
        rw [hz]
        rcases hk : isActiveShelfStockAlert shelf
            (stockAlertRec env shelf t p fill empty inv db.nextId now) with _ | _ <;>
          simp [hk]
      · rw [stockAlertRec_key_ne env shelf s2 t p fill empty inv db.nextId now hs]
        simpa using h

theorem check_misplacement_countP (env : Env) (now : Nat) (db : DB) (shelf : String)
    (items : List (Option String)) (inv : List Inventory) (s2 : String) :
    (check_misplacement env now db shelf items inv).1.alerts.countP
      (isActiveShelfStockAlert s2) =
      db.alerts.countP (isActiveShelfStockAlert s2) := by
  have hf := (check_misplacement_frame env now db shelf items inv).2
  rw [countP_filter_sub (isActiveShelfStockAlert s2) isStockTypeB
      (check_misplacement env now db shelf items inv).1.alerts
      (fun a ha => key_imp_stockType ha), hf,
    ← countP_filter_sub (isActiveShelfStockAlert s2) isStockTypeB db.alerts
      (fun a ha => key_imp_stockType ha)]

theorem unknownShelfAlert_key (s2 shelf : String) (labels : List String) (b : Bool)
    (i now : Nat) :
    isActiveShelfStockAlert s2 (unknownShelfAlert shelf labels b i now) = false := by
  simp [isActiveShelfStockAlert, unknownShelfAlert]

theorem unknown_shelf_countP (env : Env) (now : Nat) (db : DB) (shelf : String)
    (items : List (Option String)) (s2 : String) :
    (create_unknown_shelf_alert env now db shelf items).1.alerts.countP
      (isActiveShelfStockAlert s2) =
      db.alerts.countP (isActiveShelfStockAlert s2) := by
  unfold create_unknown_shelf_alert
  by_cases hit : items.isEmpty = true
  · rw [if_pos hit]
    simp only [addAlert, log_alert_action]
    rw [List.countP_append, List.countP_cons, List.countP_nil, unknownShelfAlert_key]
    simp
  · rw [if_neg hit]
    cases hseq : seqLabels items with
    | error e => rfl
    | ok labels =>
      simp only [addAlert, log_alert_action]
      rw [List.countP_append, List.countP_cons, List.countP_nil, unknownShelfAlert_key]
      simp

theorem process_shelf_countP_le (env : Env) (now : Nat) (db : DB) (shelf : String)
    (empty : ℚ) (items : List (Option String)) (s2 : String)
    (h : db.alerts.countP (isActiveShelfStockAlert s2) ≤ 1) :
    (process_shelf_data env now db shelf empty items).1.alerts.countP
      (isActiveShelfStockAlert s2) ≤ 1 := by
  by_cases hk : env.shelves.contains shelf = true
  · rw [process_shelf_fst_known env now db shelf empty items hk,
      check_misplacement_countP]
    exact check_stock_countP_le env now db shelf (100 - empty) empty _ s2 h
  · have hk2 : env.shelves.contains shelf = false := by
      rcases hx : env.shelves.contains shelf with _ | _
      · rfl
      · exact absurd hx hk
    simp only [process_shelf_data]
    rw [if_pos (by rw [hk2]; rfl)]
    have hu := unknown_shelf_countP env now db shelf items s2
    rcases hp : create_unknown_shelf_alert env now db shelf items with ⟨db1, r⟩
    rw [hp] at hu
    cases r with
    | ok a => exact Eq.trans_le hu h
    | error e => exact Eq.trans_le hu h

theorem ingest_countP_le (env : Env) (now : Nat) (db : DB) (input : SnapshotInput)
    (s2 : String) (h : db.alerts.countP (isActiveShelfStockAlert s2) ≤ 1) :
    (process_json_data env now db input).1.alerts.countP
      (isActiveShelfStockAlert s2) ≤ 1 := by
  by_cases ht : strTruthy input.shelf_number = true
  · rw [process_json_fst env now db input ht]
    exact process_shelf_countP_le env now db input.shelf_number input.empty_percentage
      input.items_detected s2 h
  · have ht2 : strTruthy input.shelf_number = false := by
      rcases hx : strTruthy input.shelf_number with _ | _
      · rfl
      · exact absurd hx ht
    unfold process_json_data
    rw [if_pos (by rw [ht2]; rfl)]
    exact h

theorem ack_countP_le (db : DB) (now : Nat) (i : Nat) (e : String) (s2 : String)
    (h : db.alerts.countP (isActiveShelfStockAlert s2) ≤ 1) :
    (acknowledge_alert db now i e).1.alerts.countP (isActiveShelfStockAlert s2) ≤ 1 := by
  cases hfind : db.alerts.find? (fun a => a.id == i) with
  | none =>
    have hfst : (acknowledge_alert db now i e).1 = db := by
      simp [acknowledge_alert, hfind]
    rw [hfst]
    exact h
  | some a =>
    by_cases hst : (a.status == AlertStatus.active) = true
    · obtain ⟨l1, l2, hl, hl1none, hkey⟩ := find?_decomp hfind
      have hup : isActiveShelfStockAlert s2
          { a with
            status := AlertStatus.acknowledged,
            acknowledged_at := some now, updated_at := now } = false := by
        simp [isActiveShelfStockAlert]
      have hz : (if false = true then (1 : Nat) else 0) = 0 := rfl
      simp only [acknowledge_alert, hfind, hst, if_true, log_alert_action]
      rw [hl, modifyFirst_split _ _ _ _ _ hl1none hkey]
      simp only [List.countP_append, List.countP_cons]
      rw [hup, hz]
      rw [hl, List.countP_append, List.countP_cons] at h
      rcases hka : isActiveShelfStockAlert s2 a with _ | _
      · have h0 : (if false = true then (1 : Nat) else 0) = 0 := rfl
        rw [hka, h0] at h
        omega
      · have h1 : (if true = true then (1 : Nat) else 0) = 1 := rfl
        rw [hka, h1] at h
        omega
    · have hst2 : (a.status == AlertStatus.active) = false := by
        rcases hx : a.status == AlertStatus.active with _ | _
        · rfl
        · exact absurd hx hst
      have hfst : (acknowledge_alert db now i e).1 = db := by
        simp [acknowledge_alert, hfind, hst2]
      rw [hfst]
      exact h

theorem res_countP_le (db : DB) (now : Nat) (i : Nat) (e : String) (s2 : String)
    (h : db.alerts.countP (isActiveShelfStockAlert s2) ≤ 1) :
    (resolve_alert db now i e).1.alerts.countP (isActiveShelfStockAlert s2) ≤ 1 := by
  cases hfind : db.alerts.find? (fun a => a.id == i) with
  | none =>
    have hfst : (resolve_alert db now i e).1 = db := by
      simp [resolve_alert, hfind]
    rw [hfst]
    exact h
  | some a =>
    by_cases hst : (a.status == AlertStatus.active ||
        a.status == AlertStatus.acknowledged) = true
    · obtain ⟨l1, l2, hl, hl1none, hkey⟩ := find?_decomp hfind
      have hup : isActiveShelfStockAlert s2
          { a with
            status := AlertStatus.resolved,
            resolved_at := some now, updated_at := now } = false := by
        simp [isActiveShelfStockAlert]
      have hz : (if false = true then (1 : Nat) else 0) = 0 := rfl
      simp only [resolve_alert, hfind, hst, if_true, log_alert_action]
      rw [hl, modifyFirst_split _ _ _ _ _ hl1none hkey]
      simp only [List.countP_append, List.countP_cons]
      rw [hup, hz]
      rw [hl, List.countP_append, List.countP_cons] at h
      rcases hka : isActiveShelfStockAlert s2 a with _ | _
      · have h0 : (if false = true then (1 : Nat) else 0) = 0 := rfl
        rw [hka, h0] at h
        omega
      · have h1 : (if true = true then (1 : Nat) else 0) = 1 := rfl
        rw [hka, h1] at h
        omega
    · have hst2 : (a.status == AlertStatus.active ||
          a.status == AlertStatus.acknowledged) = false := by
        rcases hx : a.status == AlertStatus.active ||
            a.status == AlertStatus.acknowledged with _ | _
        · rfl
        · exact absurd hx hst
      have hfst : (resolve_alert db now i e).1 = db := by
        simp [resolve_alert, hfind, hst2]
      rw [hfst]
      exact h

theorem step_stockInvariant (env : Env) (db : DB) (op : Nat × Op)
    (h : stockInvariant db) : stockInvariant (step env db op) := by
  obtain ⟨now, o⟩ := op
  cases o with
  | ingest input =>
    intro s2
    exact ingest_countP_le env now db input s2 (h s2)
  | ack i e =>
    intro s2
    exact ack_countP_le db now i e s2 (h s2)
  | res i e =>
    intro s2
    exact res_countP_le db now i e s2 (h s2)

/-- C3: the per-shelf stock-alert uniqueness invariant — at most one
ACTIVE shelf-level stock-tier alert per shelf — is preserved by every
sequence of engine operations (snapshot ingestions, acknowledgements
and resolutions): ingestion either auto-resolves, updates the found
alert in place, or creates one only when none exists; the misplacement
phase never touches stock-tier rows; acknowledge/resolve only move
alerts out of ACTIVE. -/
theorem c3_stock_invariant (env : Env) (db : DB) (ops : List (Nat × Op))
    (h : stockInvariant db) : stockInvariant (run env db ops) := by
  induction ops generalizing db with
  | nil => exact h
  | cons op rest ih => exact ih (step env db op) (step_stockInvariant env db op h)

/-- Witness for C3: the empty session satisfies the invariant, and it
still holds after ingesting a snapshot for shelf A1 twice (create then
in-place update), acknowledging the created alert, and ingesting a
snapshot for an unknown shelf. -/
theorem c3_stock_invariant_witness :
    stockInvariant db0 ∧
    stockInvariant (run envA db0
      [(1, Op.ingest ⟨"A1", 95, [some "Banana"]⟩),
       (2, Op.ack 1 "emp1"),
       (3, Op.ingest ⟨"A1", 95, []⟩),
       (4, Op.ingest ⟨"Z9", 50, [some "Drill"]⟩),
       (5, Op.res 1 "emp1")]) := by
  have h0 : stockInvariant db0 := by
    intro s
    simp [db0, stockInvariant]
  exact ⟨h0, c3_stock_invariant envA db0 _ h0⟩

end ShelfCam
